import Mathlib

/-!
Verification of the plex-meta-tvdb adapter's identifier codec, entity mapper
and lookup service, shallowly embedded from the TypeScript source
(`MetadataService.parseRatingKey`, `TVDBMapper`, `MetadataService`).  Strings
are modelled as `List Char` under the hood; JS numbers that are always
non-negative integers in this code are `Nat`, signed ones are `Int`.
-/

namespace PlexTvdb

/-! ## Character classes and decimal digits

`\d` and `[a-z]` of the JS regexes, and `parseInt(s, 10)` on all-digit
strings. -/

/-- The regex class `\d`. -/
def isDigitCh (c : Char) : Bool := '0' ≤ c && c ≤ '9'

/-- The regex class `[a-z]`. -/
def isLowerCh (c : Char) : Bool := 'a' ≤ c && c ≤ 'z'

/-- Numeric value of a digit character, as `parseInt` reads it. -/
def digitVal (c : Char) : Nat := c.toNat - 48

/-- The regex `\d+`: a non-empty run of digits. -/
def isDigitSeg (l : List Char) : Bool := !l.isEmpty && l.all isDigitCh

/-- The regex `[a-z]+`: a non-empty run of lowercase letters. -/
def isLowerSeg (l : List Char) : Bool := !l.isEmpty && l.all isLowerCh

/-- `parseInt(s, 10)` restricted to all-digit strings. -/
def segVal (l : List Char) : Nat := l.foldl (fun a c => a * 10 + digitVal c) 0

/-- The decimal digit character for `d < 10`. -/
def digitCh (d : Nat) : Char :=
  if d = 0 then '0' else if d = 1 then '1' else if d = 2 then '2'
  else if d = 3 then '3' else if d = 4 then '4' else if d = 5 then '5'
  else if d = 6 then '6' else if d = 7 then '7' else if d = 8 then '8' else '9'

/-- Little-endian decimal digits of `n`, with explicit fuel so that the
definition is structurally recursive (any `fuel > n` suffices). -/
def toDecAux : Nat → Nat → List Char
  | 0, _ => []
  | fuel + 1, n =>
      if n < 10 then [digitCh n]
      else digitCh (n % 10) :: toDecAux fuel (n / 10)

/-- Decimal digit string of a natural number, most significant digit first:
how a JS template literal renders a non-negative integer. -/
def natChars (n : Nat) : List Char := (toDecAux (n + 1) n).reverse

/-- Decimal rendering of a JS number known to be an integer. -/
def intChars (n : Int) : List Char :=
  if n < 0 then '-' :: natChars n.toNat else natChars n.toNat

def natStr (n : Nat) : String := ⟨natChars n⟩

def intStr (n : Int) : String := ⟨intChars n⟩

/-! ## Anchored literal matching and dash splitting

The five decode regexes all have the form
`^LITERAL(\d+)(-(\d+))*(-([a-z]+))?$`.  Since `\d`, `[a-z]` and the literal
`-` are disjoint character classes, an anchored regex of that shape matches
exactly when the text starts with the literal and the remainder splits on
`-` into segments of the indicated classes; backtracking can produce no
other factorisation.  `dropLit` strips the anchored literal, `splitDash`
splits the remainder at every `-`. -/

/-- Strip an expected literal from the front of the text; `none` when the
text does not start with it. -/
def dropLit : List Char → List Char → Option (List Char)
  | [], s => some s
  | _ :: _, [] => none
  | p :: ps, c :: cs => if c = p then dropLit ps cs else none

/-- Split at every `'-'` (the separators themselves dropped); total, and the
result is always non-empty. -/
def splitDash : List Char → List (List Char)
  | [] => [[]]
  | c :: cs =>
      let r := splitDash cs
      if c = '-' then [] :: r
      else
        match r with
        | [] => [[c]]
        | s :: ss => (c :: s) :: ss

/-! ## The identifier codec

`MetadataService.parseRatingKey` tries five anchored regexes in order:
show, season-with-type, season, episode-with-type, episode. -/

inductive MetaKind where
  | showKind
  | seasonKind
  | episodeKind
deriving Repr, DecidableEq

/-- The `ParsedRatingKey` interface of `MetadataService`. -/
structure ParsedRatingKey where
  type : MetaKind
  seriesId : Nat
  seasonNumber : Option Nat := none
  episodeNumber : Option Nat := none
  seasonType : Option String := none
deriving Repr, DecidableEq

def showLit : List Char := ['t', 'v', 'd', 'b', '-', 's', 'h', 'o', 'w', '-']

def seasonLit : List Char :=
  ['t', 'v', 'd', 'b', '-', 's', 'e', 'a', 's', 'o', 'n', '-']

def episodeLit : List Char :=
  ['t', 'v', 'd', 'b', '-', 'e', 'p', 'i', 's', 'o', 'd', 'e', '-']

/-- `^tvdb-show-(\d+)$`. -/
def matchShow (l : List Char) : Option ParsedRatingKey :=
  match dropLit showLit l with
  | none => none
  | some rest =>
      if isDigitSeg rest then
        some { type := .showKind, seriesId := segVal rest }
      else none

/-- `^tvdb-season-(\d+)-(\d+)-([a-z]+)$`. -/
def matchSeasonWithType (l : List Char) : Option ParsedRatingKey :=
  match dropLit seasonLit l with
  | none => none
  | some rest =>
      match splitDash rest with
      | [a, b, t] =>
          if isDigitSeg a && isDigitSeg b && isLowerSeg t then
            some { type := .seasonKind, seriesId := segVal a,
                   seasonNumber := some (segVal b), seasonType := some ⟨t⟩ }
          else none
      | _ => none

/-- `^tvdb-season-(\d+)-(\d+)$`. -/
def matchSeasonPlain (l : List Char) : Option ParsedRatingKey :=
  match dropLit seasonLit l with
  | none => none
  | some rest =>
      match splitDash rest with
      | [a, b] =>
          if isDigitSeg a && isDigitSeg b then
            some { type := .seasonKind, seriesId := segVal a,
                   seasonNumber := some (segVal b) }
          else none
      | _ => none

/-- `^tvdb-episode-(\d+)-(\d+)-(\d+)-([a-z]+)$`. -/
def matchEpisodeWithType (l : List Char) : Option ParsedRatingKey :=
  match dropLit episodeLit l with
  | none => none
  | some rest =>
      match splitDash rest with
      | [a, b, c, t] =>
          if isDigitSeg a && isDigitSeg b && isDigitSeg c && isLowerSeg t then
            some { type := .episodeKind, seriesId := segVal a,
                   seasonNumber := some (segVal b),
                   episodeNumber := some (segVal c), seasonType := some ⟨t⟩ }
          else none
      | _ => none

/-- `^tvdb-episode-(\d+)-(\d+)-(\d+)$`. -/
def matchEpisodePlain (l : List Char) : Option ParsedRatingKey :=
  match dropLit episodeLit l with
  | none => none
  | some rest =>
      match splitDash rest with
      | [a, b, c] =>
          if isDigitSeg a && isDigitSeg b && isDigitSeg c then
            some { type := .episodeKind, seriesId := segVal a,
                   seasonNumber := some (segVal b),
                   episodeNumber := some (segVal c) }
          else none
      | _ => none

/-- `MetadataService.parseRatingKey`: the five regexes tried in source
order, first match wins, `null` when none matches. -/
def parseRatingKeyChars (l : List Char) : Option ParsedRatingKey :=
  match matchShow l with
  | some r => some r
  | none =>
      match matchSeasonWithType l with
      | some r => some r
      | none =>
          match matchSeasonPlain l with
          | some r => some r
          | none =>
              match matchEpisodeWithType l with
              | some r => some r
              | none => matchEpisodePlain l

def parseRatingKey (s : String) : Option ParsedRatingKey :=
  parseRatingKeyChars s.data

/-- The five anchored decode forms, in the order the source tries them. -/
def decodeForms : List (List Char → Option ParsedRatingKey) :=
  [matchShow, matchSeasonWithType, matchSeasonPlain,
   matchEpisodeWithType, matchEpisodePlain]

/-! ## The encoders of spec 4.1

These are the string formats the mapper's template literals produce
(`tvdb-show-${id}` etc.); the optional ordering tag is appended after a
dash when supplied. -/

def encodeShow (seriesId : Nat) : String :=
  ⟨showLit ++ natChars seriesId⟩

def encodeSeason (seriesId seasonNumber : Nat) (tag : Option String) : String :=
  ⟨seasonLit ++ natChars seriesId ++ '-' :: natChars seasonNumber ++
    (match tag with | none => [] | some t => '-' :: t.data)⟩

def encodeEpisode (seriesId seasonNumber episodeNumber : Nat)
    (tag : Option String) : String :=
  ⟨episodeLit ++ natChars seriesId ++ '-' :: natChars seasonNumber ++
    '-' :: natChars episodeNumber ++
    (match tag with | none => [] | some t => '-' :: t.data)⟩

example : showLit = "tvdb-show-".data := by decide
example : seasonLit = "tvdb-season-".data := by decide
example : episodeLit = "tvdb-episode-".data := by decide

example : natStr 15260 = "15260" := by decide

example : parseRatingKey "tvdb-show-15260" =
    some { type := .showKind, seriesId := 15260 } := by decide

example : parseRatingKey "tvdb-season-15260-1-dvd" =
    some { type := .seasonKind, seriesId := 15260, seasonNumber := some 1,
           seasonType := some "dvd" } := by decide

example : parseRatingKey "tvdb-episode-15260-1-5" =
    some { type := .episodeKind, seriesId := 15260, seasonNumber := some 1,
           episodeNumber := some 5 } := by decide

example : parseRatingKey "tvdb-episode-15260-1-5-absolute" =
    some { type := .episodeKind, seriesId := 15260, seasonNumber := some 1,
           episodeNumber := some 5, seasonType := some "absolute" } := by decide

example : parseRatingKey "" = none := by decide
example : parseRatingKey "tvdb-season-1-2-3" = none := by decide
example : parseRatingKey "tvdb-show-1x" = none := by decide
example : parseRatingKey "tvdb-season-15260" = none := by decide

example : encodeSeason 15260 1 (some "dvd") = "tvdb-season-15260-1-dvd" := by decide
example : encodeEpisode 15260 1 5 none = "tvdb-episode-15260-1-5" := by decide

/-! ## Lemmas: decimal digit strings -/

lemma digitCh_isDigit {d : Nat} (h : d < 10) : isDigitCh (digitCh d) = true := by
  interval_cases d <;> decide

lemma digitVal_digitCh {d : Nat} (h : d < 10) : digitVal (digitCh d) = d := by
  interval_cases d <;> decide

lemma toDecAux_ne_nil {fuel n : Nat} (h : n < fuel) : toDecAux fuel n ≠ [] := by
  cases fuel with
  | zero => omega
  | succ f =>
      unfold toDecAux
      split <;> simp

lemma toDecAux_digits :
    ∀ fuel n, n < fuel → (toDecAux fuel n).all isDigitCh = true := by
  intro fuel
  induction fuel with
  | zero => intro n h; omega
  | succ f ih =>
      intro n h
      unfold toDecAux
      split
      · rename_i h10
        simp [digitCh_isDigit h10]
      · rename_i h10
        have hlt : n / 10 < n := Nat.div_lt_self (by omega) (by omega)
        have hd : n / 10 < f := by omega
        simp [digitCh_isDigit (Nat.mod_lt n (by omega)), ih _ hd]

lemma segVal_append_single (l : List Char) (c : Char) :
    segVal (l ++ [c]) = segVal l * 10 + digitVal c := by
  simp [segVal, List.foldl_append]

lemma toDecAux_val :
    ∀ fuel n, n < fuel → segVal (toDecAux fuel n).reverse = n := by
  intro fuel
  induction fuel with
  | zero => intro n h; omega
  | succ f ih =>
      intro n h
      unfold toDecAux
      split
      · rename_i h10
        simp [segVal, digitVal_digitCh h10]
      · rename_i h10
        have hlt : n / 10 < n := Nat.div_lt_self (by omega) (by omega)
        have hd : n / 10 < f := by omega
        rw [List.reverse_cons, segVal_append_single, ih _ hd,
            digitVal_digitCh (Nat.mod_lt n (by omega))]
        omega

lemma natChars_digitSeg (n : Nat) : isDigitSeg (natChars n) = true := by
  have h1 := toDecAux_ne_nil (Nat.lt_succ_self n)
  have h2 := toDecAux_digits (n + 1) n (Nat.lt_succ_self n)
  simp only [isDigitSeg, natChars, Bool.and_eq_true, Bool.not_eq_true']
  constructor
  · simp [List.isEmpty_iff, h1]
  · simpa using h2

lemma natChars_val (n : Nat) : segVal (natChars n) = n :=
  toDecAux_val (n + 1) n (Nat.lt_succ_self n)

lemma ne_dash_of_digit {c : Char} (h : isDigitCh c = true) : c ≠ '-' := by
  intro he
  rw [he] at h
  exact absurd h (by decide)

lemma ne_dash_of_lower {c : Char} (h : isLowerCh c = true) : c ≠ '-' := by
  intro he
  rw [he] at h
  exact absurd h (by decide)

lemma no_dash_of_digitSeg {l : List Char} (h : isDigitSeg l = true) :
    ∀ c ∈ l, c ≠ '-' := by
  intro c hc
  simp only [isDigitSeg, Bool.and_eq_true, List.all_eq_true] at h
  exact ne_dash_of_digit (h.2 c hc)

lemma no_dash_of_lowerSeg {l : List Char} (h : isLowerSeg l = true) :
    ∀ c ∈ l, c ≠ '-' := by
  intro c hc
  simp only [isLowerSeg, Bool.and_eq_true, List.all_eq_true] at h
  exact ne_dash_of_lower (h.2 c hc)

/-! ## Lemmas: `splitDash` and `dropLit` -/

lemma splitDash_ne_nil : ∀ l : List Char, splitDash l ≠ [] := by
  intro l
  cases l with
  | nil => simp [splitDash]
  | cons c cs =>
      simp only [splitDash]
      split
      · simp
      · split <;> simp

lemma splitDash_no_dash : ∀ l : List Char, (∀ c ∈ l, c ≠ '-') →
    splitDash l = [l] := by
  intro l
  induction l with
  | nil => intro _; rfl
  | cons c cs ih =>
      intro h
      have hc : c ≠ '-' := h c (by simp)
      have hcs := ih (fun x hx => h x (by simp [hx]))
      simp only [splitDash, hcs]
      simp [hc]

lemma splitDash_append (a rest : List Char) (h : ∀ c ∈ a, c ≠ '-') :
    splitDash (a ++ '-' :: rest) = a :: splitDash rest := by
  induction a with
  | nil => simp [splitDash]
  | cons c cs ih =>
      have hc : c ≠ '-' := h c (by simp)
      have hcs := ih (fun x hx => h x (by simp [hx]))
      simp only [List.cons_append, splitDash, List.append_eq]
      rw [hcs, if_neg hc]

lemma dropLit_self_append : ∀ p r : List Char, dropLit p (p ++ r) = some r := by
  intro p
  induction p with
  | nil => intro r; rfl
  | cons c cs ih => intro r; simp [dropLit, ih]

lemma dropLit_eq_append : ∀ p l r : List Char,
    dropLit p l = some r → l = p ++ r := by
  intro p
  induction p with
  | nil =>
      intro l r h
      simpa [dropLit] using h
  | cons c cs ih =>
      intro l r h
      cases l with
      | nil => simp [dropLit] at h
      | cons x xs =>
          simp only [dropLit] at h
          split at h
          · rename_i hx
            rw [hx, List.cons_append]
            exact congrArg _ (ih xs r h)
          · exact absurd h (by simp)

/-! ## C1: encode→decode round-trip -/

/-- The three anchored literals are pairwise incompatible: each pair differs
at some index before either ends, so stripping one literal fails on any
text that starts with another. -/
lemma dropLit_show_season (r : List Char) :
    dropLit showLit (seasonLit ++ r) = none := rfl

lemma dropLit_show_episode (r : List Char) :
    dropLit showLit (episodeLit ++ r) = none := rfl

lemma dropLit_season_show (r : List Char) :
    dropLit seasonLit (showLit ++ r) = none := rfl

lemma dropLit_season_episode (r : List Char) :
    dropLit seasonLit (episodeLit ++ r) = none := rfl

lemma dropLit_episode_show (r : List Char) :
    dropLit episodeLit (showLit ++ r) = none := rfl

lemma dropLit_episode_season (r : List Char) :
    dropLit episodeLit (seasonLit ++ r) = none := rfl

lemma matchShow_encode (id : Nat) :
    matchShow (showLit ++ natChars id) =
      some { type := .showKind, seriesId := id } := by
  simp [matchShow, dropLit_self_append, natChars_digitSeg, natChars_val]

/-- C1: for every valid identifier of the three shapes, with or without a
trailing lowercase ordering tag, decoding the encoded string recovers
exactly the original components through `parseRatingKey`. -/
theorem decode_encode_roundtrip (id n e : Nat) (tag : Option String)
    (ht : tag.all (fun t => isLowerSeg t.data) = true) :
    parseRatingKey (encodeShow id) =
      some { type := .showKind, seriesId := id } ∧
    parseRatingKey (encodeSeason id n tag) =
      some { type := .seasonKind, seriesId := id, seasonNumber := some n,
             seasonType := tag } ∧
    parseRatingKey (encodeEpisode id n e tag) =
      some { type := .episodeKind, seriesId := id, seasonNumber := some n,
             episodeNumber := some e, seasonType := tag } := by
  refine ⟨?_, ?_, ?_⟩
  · show parseRatingKeyChars (showLit ++ natChars id) = _
    simp [parseRatingKeyChars, matchShow_encode]
  · cases tag with
    | none =>
        show parseRatingKeyChars (encodeSeason id n none).data = _
        have hdata : (encodeSeason id n none).data =
            seasonLit ++ (natChars id ++ '-' :: natChars n) := by
          simp [encodeSeason, List.append_assoc]
        have hsplit : splitDash (natChars id ++ '-' :: natChars n) =
            [natChars id, natChars n] := by
          rw [splitDash_append _ _ (no_dash_of_digitSeg (natChars_digitSeg id)),
              splitDash_no_dash _ (no_dash_of_digitSeg (natChars_digitSeg n))]
        rw [hdata]
        simp [parseRatingKeyChars, matchShow, matchSeasonWithType,
              matchSeasonPlain, dropLit_show_season, dropLit_self_append,
              hsplit, natChars_digitSeg, natChars_val]
    | some t =>
        obtain ⟨td⟩ := t
        simp only [Option.all_some] at ht
        show parseRatingKeyChars (encodeSeason id n (some ⟨td⟩)).data = _
        have hdata : (encodeSeason id n (some ⟨td⟩)).data =
            seasonLit ++ (natChars id ++ '-' :: (natChars n ++ '-' :: td)) := by
          simp [encodeSeason, List.append_assoc]
        have hsplit : splitDash (natChars id ++ '-' :: (natChars n ++ '-' :: td)) =
            [natChars id, natChars n, td] := by
          rw [splitDash_append _ _ (no_dash_of_digitSeg (natChars_digitSeg id)),
              splitDash_append _ _ (no_dash_of_digitSeg (natChars_digitSeg n)),
              splitDash_no_dash _ (no_dash_of_lowerSeg ht)]
        rw [hdata]
        simp [parseRatingKeyChars, matchShow, matchSeasonWithType,
              dropLit_show_season, dropLit_self_append, hsplit,
              natChars_digitSeg, natChars_val, ht]
  · cases tag with
    | none =>
        show parseRatingKeyChars (encodeEpisode id n e none).data = _
        have hdata : (encodeEpisode id n e none).data =
            episodeLit ++ (natChars id ++ '-' ::
              (natChars n ++ '-' :: natChars e)) := by
          simp [encodeEpisode, List.append_assoc]
        have hsplit : splitDash
            (natChars id ++ '-' :: (natChars n ++ '-' :: natChars e)) =
            [natChars id, natChars n, natChars e] := by
          rw [splitDash_append _ _ (no_dash_of_digitSeg (natChars_digitSeg id)),
              splitDash_append _ _ (no_dash_of_digitSeg (natChars_digitSeg n)),
              splitDash_no_dash _ (no_dash_of_digitSeg (natChars_digitSeg e))]
        rw [hdata]
        simp [parseRatingKeyChars, matchShow, matchSeasonWithType,
              matchSeasonPlain, matchEpisodeWithType, matchEpisodePlain,
              dropLit_show_episode, dropLit_season_episode,
              dropLit_self_append, hsplit, natChars_digitSeg, natChars_val]
    | some t =>
        obtain ⟨td⟩ := t
        simp only [Option.all_some] at ht
        show parseRatingKeyChars (encodeEpisode id n e (some ⟨td⟩)).data = _
        have hdata : (encodeEpisode id n e (some ⟨td⟩)).data =
            episodeLit ++ (natChars id ++ '-' ::
              (natChars n ++ '-' :: (natChars e ++ '-' :: td))) := by
          simp [encodeEpisode, List.append_assoc]
        have hsplit : splitDash (natChars id ++ '-' ::
            (natChars n ++ '-' :: (natChars e ++ '-' :: td))) =
            [natChars id, natChars n, natChars e, td] := by
          rw [splitDash_append _ _ (no_dash_of_digitSeg (natChars_digitSeg id)),
              splitDash_append _ _ (no_dash_of_digitSeg (natChars_digitSeg n)),
              splitDash_append _ _ (no_dash_of_digitSeg (natChars_digitSeg e)),
              splitDash_no_dash _ (no_dash_of_lowerSeg ht)]
        rw [hdata]
        simp [parseRatingKeyChars, matchShow, matchSeasonWithType,
              matchSeasonPlain, matchEpisodeWithType,
              dropLit_show_episode, dropLit_season_episode,
              dropLit_self_append, hsplit, natChars_digitSeg, natChars_val, ht]

/-- C1 witness: the round-trip evaluated at seriesId 15260, season 1,
episode 5 with ordering tag "dvd". -/
theorem decode_encode_roundtrip_witness :
    (Option.all (fun t => isLowerSeg t.data) (some "dvd") = true) ∧
    (parseRatingKey (encodeShow 15260) =
      some { type := .showKind, seriesId := 15260 } ∧
    parseRatingKey (encodeSeason 15260 1 (some "dvd")) =
      some { type := .seasonKind, seriesId := 15260, seasonNumber := some 1,
             seasonType := some "dvd" } ∧
    parseRatingKey (encodeEpisode 15260 1 5 (some "dvd")) =
      some { type := .episodeKind, seriesId := 15260, seasonNumber := some 1,
             episodeNumber := some 5, seasonType := some "dvd" }) :=
  ⟨by decide, decode_encode_roundtrip 15260 1 5 (some "dvd") (by decide)⟩

/-! ## C3: the five decode forms are mutually exclusive and total -/

lemma matchShow_none {l : List Char} (h : dropLit showLit l = none) :
    matchShow l = none := by
  simp [matchShow, h]

lemma matchSeasonWithType_none {l : List Char}
    (h : dropLit seasonLit l = none) : matchSeasonWithType l = none := by
  simp [matchSeasonWithType, h]

lemma matchSeasonPlain_none {l : List Char}
    (h : dropLit seasonLit l = none) : matchSeasonPlain l = none := by
  simp [matchSeasonPlain, h]

lemma matchEpisodeWithType_none {l : List Char}
    (h : dropLit episodeLit l = none) : matchEpisodeWithType l = none := by
  simp [matchEpisodeWithType, h]

lemma matchEpisodePlain_none {l : List Char}
    (h : dropLit episodeLit l = none) : matchEpisodePlain l = none := by
  simp [matchEpisodePlain, h]

lemma dropLit_clash_show_season {l r₁ r₂ : List Char}
    (h₁ : dropLit showLit l = some r₁) (h₂ : dropLit seasonLit l = some r₂) :
    False := by
  rw [dropLit_eq_append _ _ _ h₁, dropLit_season_show] at h₂
  exact absurd h₂ (by simp)

lemma dropLit_clash_show_episode {l r₁ r₂ : List Char}
    (h₁ : dropLit showLit l = some r₁) (h₂ : dropLit episodeLit l = some r₂) :
    False := by
  rw [dropLit_eq_append _ _ _ h₁, dropLit_episode_show] at h₂
  exact absurd h₂ (by simp)

lemma dropLit_clash_season_episode {l r₁ r₂ : List Char}
    (h₁ : dropLit seasonLit l = some r₁)
    (h₂ : dropLit episodeLit l = some r₂) : False := by
  rw [dropLit_eq_append _ _ _ h₁, dropLit_episode_season] at h₂
  exact absurd h₂ (by simp)

/-- The two season forms cannot both match: they demand different segment
counts of the same dash-split remainder. -/
lemma season_pair_excl (l : List Char) :
    matchSeasonWithType l = none ∨ matchSeasonPlain l = none := by
  cases hd : dropLit seasonLit l with
  | none => exact Or.inl (matchSeasonWithType_none hd)
  | some r =>
      rcases hs : splitDash r with _ | ⟨a, _ | ⟨b, _ | ⟨t, _ | ⟨u, us⟩⟩⟩⟩ <;>
        simp [matchSeasonWithType, matchSeasonPlain, hd, hs]

/-- The two episode forms cannot both match. -/
lemma episode_pair_excl (l : List Char) :
    matchEpisodeWithType l = none ∨ matchEpisodePlain l = none := by
  cases hd : dropLit episodeLit l with
  | none => exact Or.inl (matchEpisodeWithType_none hd)
  | some r =>
      rcases hs : splitDash r with
        _ | ⟨a, _ | ⟨b, _ | ⟨c, _ | ⟨t, _ | ⟨u, us⟩⟩⟩⟩⟩ <;>
        simp [matchEpisodeWithType, matchEpisodePlain, hd, hs]

lemma forms_countP_le_one (l : List Char) :
    decodeForms.countP (fun m => (m l).isSome) ≤ 1 := by
  cases h₁ : dropLit showLit l with
  | some r₁ =>
      cases h₂ : dropLit seasonLit l with
      | some r₂ => exact absurd (dropLit_clash_show_season h₁ h₂) id
      | none =>
          cases h₃ : dropLit episodeLit l with
          | some r₃ => exact absurd (dropLit_clash_show_episode h₁ h₃) id
          | none =>
              simp [decodeForms, matchSeasonWithType_none h₂,
                    matchSeasonPlain_none h₂, matchEpisodeWithType_none h₃,
                    matchEpisodePlain_none h₃, List.countP_cons]
              split <;> omega
  | none =>
      cases h₂ : dropLit seasonLit l with
      | some r₂ =>
          cases h₃ : dropLit episodeLit l with
          | some r₃ => exact absurd (dropLit_clash_season_episode h₂ h₃) id
          | none =>
              rcases season_pair_excl l with h | h <;>
              · simp [decodeForms, matchShow_none h₁,
                      matchEpisodeWithType_none h₃, matchEpisodePlain_none h₃,
                      h, List.countP_cons]
                split <;> omega
      | none =>
          cases h₃ : dropLit episodeLit l with
          | some r₃ =>
              rcases episode_pair_excl l with h | h <;>
              · simp [decodeForms, matchShow_none h₁,
                      matchSeasonWithType_none h₂, matchSeasonPlain_none h₂,
                      h, List.countP_cons]
                split <;> omega
          | none =>
              simp [decodeForms, matchShow_none h₁,
                    matchSeasonWithType_none h₂, matchSeasonPlain_none h₂,
                    matchEpisodeWithType_none h₃, matchEpisodePlain_none h₃,
                    List.countP_cons]

lemma parse_eq_findSome (l : List Char) :
    parseRatingKeyChars l = decodeForms.findSome? (fun m => m l) := by
  unfold parseRatingKeyChars decodeForms
  cases h₁ : matchShow l <;> cases h₂ : matchSeasonWithType l <;>
    cases h₃ : matchSeasonPlain l <;> cases h₄ : matchEpisodeWithType l <;>
    cases h₅ : matchEpisodePlain l <;>
    simp [List.findSome?, h₁, h₂, h₃, h₄, h₅]

/-- `findSome?` over a bag of alternatives of which at most one fires does
not depend on their order. -/
lemma findSome?_perm_of_countP_le_one {α β : Type} (f : α → Option β)
    {fs gs : List α} (hp : fs.Perm gs)
    (hc : fs.countP (fun m => (f m).isSome) ≤ 1) :
    fs.findSome? f = gs.findSome? f := by
  induction hp with
  | nil => rfl
  | cons x h ih =>
      rw [List.countP_cons] at hc
      cases hx : f x with
      | some b => simp [List.findSome?, hx]
      | none =>
          simp only [List.findSome?, hx]
          exact ih (by omega)
  | swap x y rest =>
      rw [List.countP_cons, List.countP_cons] at hc
      cases hx : f x with
      | some b =>
          cases hy : f y with
          | some c => simp [hx, hy] at hc
          | none => simp [List.findSome?, hx, hy]
      | none => simp [List.findSome?, hx]
  | trans h₁ h₂ ih₁ ih₂ =>
      rw [ih₁ hc, ih₂ (by rw [← h₁.countP_eq]; exact hc)]

lemma parse_none_iff (l : List Char) :
    parseRatingKeyChars l = none ↔
      decodeForms.all (fun m => (m l).isNone) = true := by
  rw [parse_eq_findSome]
  unfold decodeForms
  cases h₁ : matchShow l <;> cases h₂ : matchSeasonWithType l <;>
    cases h₃ : matchSeasonPlain l <;> cases h₄ : matchEpisodeWithType l <;>
    cases h₅ : matchEpisodePlain l <;>
    simp [List.findSome?, h₁, h₂, h₃, h₄, h₅]

/-- C3: for every input string, at most one of the five anchored decode
forms matches; the decode result is the same for any trial order of the
forms; and strings matching none of the forms parse to `none` (and
conversely), never to a partial parse. -/
theorem decode_forms_exclusive_total (s : String) :
    decodeForms.countP (fun m => (m s.data).isSome) ≤ 1 ∧
    (∀ fs, decodeForms.Perm fs →
      fs.findSome? (fun m => m s.data) = parseRatingKey s) ∧
    (parseRatingKey s = none ↔
      decodeForms.all (fun m => (m s.data).isNone) = true) := by
  refine ⟨forms_countP_le_one s.data, ?_, parse_none_iff s.data⟩
  intro fs hp
  rw [← findSome?_perm_of_countP_le_one _ hp (forms_countP_le_one s.data)]
  exact (parse_eq_findSome s.data).symm

/-! ## The upstream (TVDB) data model

`src/types/tvdb.ts` is not part of the corpus; these records carry exactly
the fields the mapper reads, with nullable/optional fields as `Option`
(the unit tests exhibit the same shapes).  JS numbers that can be compared
or subtracted are `Int`; upstream ids are `Nat`. -/

structure TVDBSeasonType where
  id : Nat
  name : String
  type : String
  alternateName : Option String := none
deriving Repr, DecidableEq

structure TVDBCharacter where
  id : Nat
  name : String
  type : Int
  sort : Int
  personName : String
  personImgURL : Option String := none
deriving Repr, DecidableEq

structure TVDBArtwork where
  id : Nat
  image : String
  type : Nat
deriving Repr, DecidableEq

/-- Artwork type codes (`TVDBArtworkType`); the numeric values are TVDB's
series-artwork codes and no claim depends on them, only on their being
distinct. -/
def artworkBANNER : Nat := 1
def artworkPOSTER : Nat := 2
def artworkBACKGROUND : Nat := 3
def artworkCLEARLOGO : Nat := 23

/-- Remote-id type codes (`TVDBRemoteIdType`); the unit tests pin
IMDB = 2 and TMDB = 12. -/
def remoteIMDB : Nat := 2
def remoteTMDB : Nat := 12

structure TVDBRemoteId where
  id : String
  type : Nat
deriving Repr, DecidableEq

structure TVDBContentRating where
  name : String
  country : Option String := none
deriving Repr, DecidableEq

structure TVDBGenre where
  id : Nat
  name : String
deriving Repr, DecidableEq

structure TVDBCompany where
  id : Nat
  name : String
deriving Repr, DecidableEq

structure TVDBEpisode where
  id : Nat
  name : Option String := none
  aired : Option String := none
  runtime : Option Int := none
  overview : Option String := none
  image : Option String := none
  number : Int
  seasonNumber : Int
  remoteIds : Option (List TVDBRemoteId) := none
  characters : Option (List TVDBCharacter) := none
deriving Repr, DecidableEq

/-- `TVDBSeason` with the extended fields (`artwork`, `episodes`) optional:
the mapper casts `TVDBSeason` to `TVDBSeasonExtended` and reads them as
possibly-undefined, which this single record reproduces. -/
structure TVDBSeason where
  id : Nat
  number : Int
  name : Option String := none
  image : Option String := none
  type : TVDBSeasonType
  artwork : Option (List TVDBArtwork) := none
  episodes : Option (List TVDBEpisode) := none
deriving Repr, DecidableEq

structure TVDBSeriesExtended where
  id : Nat
  name : String
  image : Option String := none
  firstAired : Option String := none
  score : Option Int := none
  originalCountry : Option String := none
  averageRuntime : Option Int := none
  overview : Option String := none
  artworks : Option (List TVDBArtwork) := none
  genres : Option (List TVDBGenre) := none
  originalNetwork : Option TVDBCompany := none
  latestNetwork : Option TVDBCompany := none
  companies : Option (List TVDBCompany) := none
  remoteIds : Option (List TVDBRemoteId) := none
  characters : Option (List TVDBCharacter) := none
  contentRatings : Option (List TVDBContentRating) := none
  seasons : Option (List TVDBSeason) := none
  seasonTypes : Option (List TVDBSeasonType) := none
deriving Repr, DecidableEq

/-! ## The normalized (Plex) output model

`src/models/Metadata.ts` is not part of the corpus; the shapes below are
the ones the mapper constructs and the unit tests observe. -/

structure Image where
  type : String
  url : String
  alt : String
deriving Repr, DecidableEq

structure Genre where
  tag : String
deriving Repr, DecidableEq

structure Guid where
  id : String
deriving Repr, DecidableEq

structure Person where
  tag : String
  role : Option String := none
  order : Option Nat := none
  thumb : Option String := none
deriving Repr, DecidableEq

structure Rating where
  image : String
  type : String
  value : Int
deriving Repr, DecidableEq

structure Network where
  tag : String
deriving Repr, DecidableEq

structure Country where
  tag : String
deriving Repr, DecidableEq

structure Studio where
  tag : String
deriving Repr, DecidableEq

structure SeasonType where
  id : String
  source : String
  tag : String
  title : String
deriving Repr, DecidableEq

structure EpisodeMetadata where
  type : String
  ratingKey : String
  key : String
  guid : String
  title : String
  originallyAvailableAt : String
  year : Option Int := none
  summary : Option String := none
  thumb : Option String := none
  duration : Option Int := none
  index : Int
  parentIndex : Int
  parentRatingKey : String
  parentKey : String
  parentGuid : String
  parentType : String
  parentTitle : String
  parentThumb : Option String := none
  grandparentRatingKey : String
  grandparentKey : String
  grandparentGuid : String
  grandparentType : String
  grandparentTitle : String
  grandparentThumb : Option String := none
  Image : Option (List Image) := none
  Guid : Option (List Guid) := none
  Role : Option (List Person) := none
  Director : Option (List Person) := none
  Producer : Option (List Person) := none
  Writer : Option (List Person) := none
deriving Repr, DecidableEq

structure EpisodeChildren where
  size : Nat
  Metadata : List EpisodeMetadata
deriving Repr, DecidableEq

structure SeasonMetadata where
  type : String
  ratingKey : String
  key : String
  guid : String
  title : String
  originallyAvailableAt : String
  index : Int
  parentRatingKey : String
  parentKey : String
  parentGuid : String
  parentType : String
  parentTitle : String
  parentThumb : Option String := none
  thumb : Option String := none
  Guid : Option (List Guid) := none
  Image : Option (List Image) := none
  Children : Option EpisodeChildren := none
deriving Repr, DecidableEq

structure SeasonChildren where
  size : Nat
  Metadata : List SeasonMetadata
deriving Repr, DecidableEq

structure ShowMetadata where
  type : String
  ratingKey : String
  key : String
  guid : String
  title : String
  originallyAvailableAt : String
  year : Option Int := none
  summary : Option String := none
  thumb : Option String := none
  art : Option String := none
  contentRating : Option String := none
  duration : Option Int := none
  studio : Option String := none
  Image : Option (List Image) := none
  Genre : Option (List Genre) := none
  Guid : Option (List Guid) := none
  Country : Option (List Country) := none
  Role : Option (List Person) := none
  Director : Option (List Person) := none
  Producer : Option (List Person) := none
  Writer : Option (List Person) := none
  Studio : Option (List Studio) := none
  Rating : Option (List Rating) := none
  Network : Option (List Network) := none
  SeasonType : Option (List SeasonType) := none
  Children : Option SeasonChildren := none
deriving Repr, DecidableEq

/-! ## Guid/key construction and small JS idioms -/

/-- `TV_PROVIDER_IDENTIFIER` from `src/providers/TVProvider.ts`. -/
def TV_PROVIDER_IDENTIFIER : String := "tv.plex.agents.custom.example.thetvdb.tv"

/-- Modelled from the spec: `src/utils/guid.ts` is not in the corpus;
spec 4.1 gives `buildUri(scheme, entityTypeWord, identifier) ->
"{scheme}://{entityTypeWord}/{identifier}"`, which the tests confirm. -/
def constructGuid (scheme typeWord ratingKey : String) : String :=
  scheme ++ "://" ++ typeWord ++ "/" ++ ratingKey

/-- Modelled from the spec: metadata key format pinned by the unit tests
(`/library/metadata/{ratingKey}`). -/
def constructMetadataKey (ratingKey : String) : String :=
  "/library/metadata/" ++ ratingKey

/-- Modelled from the spec: children key format pinned by the unit tests
(`/library/metadata/{ratingKey}/children`). -/
def constructMetadataKeyWithChildren (ratingKey : String) : String :=
  "/library/metadata/" ++ ratingKey ++ "/children"

/-- Modelled from the spec: external guid `"{source}://{id}"` for a numeric
upstream id (tests pin `tvdb://152831`). -/
def createExternalGuidNat (source : String) (id : Nat) : String :=
  source ++ "://" ++ natStr id

/-- Modelled from the spec: external guid `"{source}://{id}"` for a string
remote id (tests pin `imdb://tt1305826`). -/
def createExternalGuidStr (source : String) (id : String) : String :=
  source ++ "://" ++ id

/-- The JS idiom `x || undefined` on an optional string: the empty string
collapses to `undefined`. -/
def orUndef (s : Option String) : Option String :=
  match s with
  | none => none
  | some v => if v = "" then none else some v

/-- `String.prototype.toUpperCase()` on the ASCII strings this code
handles. -/
def toUpperStr (s : String) : String := ⟨s.data.map Char.toUpper⟩

/-- `String.prototype.toLowerCase()` on the ASCII strings this code
handles. -/
def toLowerStr (s : String) : String := ⟨s.data.map Char.toLower⟩

/-- `new Date(s).getFullYear()` for the ISO `YYYY-MM-DD` dates this code
feeds it: the leading year digits. -/
def dateYear (s : String) : Int :=
  Int.ofNat (segVal (s.data.takeWhile isDigitCh))

/-! ## The entity mapper (`TVDBMapper`) -/

/-- `TVDBMapper.mapImages`: at most one image per category — poster,
background, clear-logo, then banner retagged as background only when no
background was found. -/
def mapImages (artworks : Option (List TVDBArtwork)) (title : String) :
    Option (List Image) :=
  match artworks with
  | none => none
  | some as =>
      if as.isEmpty then none
      else
        let poster := as.find? (fun a => a.type == artworkPOSTER)
        let background := as.find? (fun a => a.type == artworkBACKGROUND)
        let clearLogo := as.find? (fun a => a.type == artworkCLEARLOGO)
        let banner := as.find? (fun a => a.type == artworkBANNER)
        let images :=
          (match poster with
           | some p => [{ type := "coverPoster", url := p.image, alt := title }]
           | none => []) ++
          (match background with
           | some b => [{ type := "background", url := b.image, alt := title }]
           | none => []) ++
          (match clearLogo with
           | some c => [{ type := "clearLogo", url := c.image, alt := title }]
           | none => []) ++
          (match background with
           | some _ => []
           | none =>
               match banner with
               | some b => [{ type := "background", url := b.image, alt := title }]
               | none => [])
        if images.isEmpty then none else some images

/-- `TVDBMapper.mapGenres`. -/
def mapGenres (series : TVDBSeriesExtended) : Option (List Genre) :=
  match series.genres with
  | none => none
  | some gs =>
      if gs.isEmpty then none else some (gs.map (fun g => { tag := g.name }))

/-- `TVDBMapper.mapExternalGuids`. -/
def mapExternalGuids (series : TVDBSeriesExtended) : Option (List Guid) :=
  let guids : List Guid :=
    [{ id := createExternalGuidNat "tvdb" series.id }] ++
    (match series.remoteIds with
     | none => []
     | some rids =>
         (match rids.find? (fun r => r.type == remoteIMDB) with
          | some imdbRemote => [{ id := createExternalGuidStr "imdb" imdbRemote.id }]
          | none => []) ++
         (match rids.find? (fun r => r.type == remoteTMDB) with
          | some tmdbRemote => [{ id := createExternalGuidStr "tmdb" tmdbRemote.id }]
          | none => []))
  if guids.isEmpty then none else some guids

/-- Stable insertion of a character into a list already processed by
`sortBySort`, before the first element whose `sort` is not smaller:
together with `List.foldr` this reproduces the (ES2019-stable)
`Array.prototype.sort((a, b) => a.sort - b.sort)`. -/
def insBySort (x : TVDBCharacter) :
    List TVDBCharacter → List TVDBCharacter
  | [] => [x]
  | y :: ys => if y.sort < x.sort then y :: insBySort x ys else x :: y :: ys

/-- Stable ascending sort by the upstream `sort` field. -/
def sortBySort (l : List TVDBCharacter) : List TVDBCharacter :=
  l.foldr insBySort []

/-- The body of `mapCast`'s final `.map((member, index) => ...)`: 1-based
`order` by position. -/
def buildCast : Nat → List TVDBCharacter → List Person
  | _, [] => []
  | i, c :: rest =>
      { tag := c.personName, role := some c.name, order := some i,
        thumb := orUndef c.personImgURL } :: buildCast (i + 1) rest

/-- `TVDBMapper.mapCast`: filter to actor type code 3, stable-sort by
`sort` ascending, cap at 1000, re-number 1-based. -/
def mapCast (characters : Option (List TVDBCharacter)) :
    Option (List Person) :=
  match characters with
  | none => none
  | some cs =>
      if cs.isEmpty then none
      else
        let actors := sortBySort (cs.filter (fun c => c.type == 3))
        some (buildCast 1 (actors.take 1000))

structure CrewResult where
  Director : Option (List Person) := none
  Producer : Option (List Person) := none
  Writer : Option (List Person) := none
deriving Repr, DecidableEq

/-- `TVDBMapper.mapCrew`: partition by type code 1/4/2 into
director/producer/writer buckets in input order; other codes dropped. -/
def mapCrew (characters : Option (List TVDBCharacter)) : CrewResult :=
  match characters with
  | none => {}
  | some cs =>
      if cs.isEmpty then {}
      else
        let person := fun (c : TVDBCharacter) =>
          ({ tag := c.personName, thumb := orUndef c.personImgURL } : Person)
        let directors := (cs.filter (fun c => c.type == 1)).map person
        let producers := (cs.filter (fun c => c.type == 4)).map person
        let writers := (cs.filter (fun c => c.type == 2)).map person
        { Director := if directors.isEmpty then none else some directors,
          Producer := if producers.isEmpty then none else some producers,
          Writer := if writers.isEmpty then none else some writers }

/-- `TVDBMapper.mapRatings`: one audience rating when `score && score > 0`. -/
def mapRatings (series : TVDBSeriesExtended) : Option (List Rating) :=
  match series.score with
  | none => none
  | some sc =>
      if 0 < sc then
        some [{ image := "thetvdb://image.rating", type := "audience",
                value := sc }]
      else none

/-- `TVDBMapper.mapNetworks`: original network, plus the latest network
only when its id differs from the original's. -/
def mapNetworks (series : TVDBSeriesExtended) : Option (List Network) :=
  let networks : List Network :=
    (match series.originalNetwork with
     | some o => [{ tag := o.name }]
     | none => []) ++
    (match series.latestNetwork with
     | some ln =>
         if (match series.originalNetwork with
             | some o => ln.id != o.id
             | none => true) then [{ tag := ln.name }] else []
     | none => [])
  if networks.isEmpty then none else some networks

/-- `TVDBMapper.mapCountries`. -/
def mapCountries (series : TVDBSeriesExtended) : Option (List Country) :=
  match series.originalCountry with
  | none => none
  | some c => some [{ tag := c }]

/-- `TVDBMapper.mapStudios`. -/
def mapStudios (series : TVDBSeriesExtended) : Option (List Studio) :=
  match series.companies with
  | none => none
  | some cos =>
      if cos.isEmpty then none
      else some (cos.map (fun company => { tag := company.name }))

/-- The `find` predicate inside `getContentRating`. -/
def contentRatingMatches (isUS : Bool) (normalizedCountry : String)
    (r : TVDBContentRating) : Bool :=
  (match r.country with
   | some rc => toUpperStr rc == normalizedCountry
   | none => false) ||
  (isUS && (match r.country with
            | some rc => toUpperStr rc == "USA"
            | none => false)) ||
  (isUS && (match r.country with
            | some rc => toUpperStr rc == "US"
            | none => false))

/-- `TVDBMapper.getContentRating`; `country` is `none` when the caller
passed no country, in which case the JS default parameter makes it
`"US"`. -/
def getContentRating (series : TVDBSeriesExtended)
    (country : Option String) : Option String :=
  let c := country.getD "US"
  match series.contentRatings with
  | none => none
  | some rs =>
      let normalizedCountry := toUpperStr c
      let isUS := normalizedCountry == "US" || normalizedCountry == "USA"
      match rs.find? (contentRatingMatches isUS normalizedCountry) with
      | none => none
      | some rating =>
          if isUS then some rating.name
          else
            some ((match rating.country with
                   | some rc =>
                       if toLowerStr rc = "" then toLowerStr c else toLowerStr rc
                   | none => toLowerStr c) ++ "/" ++ rating.name)

/-- `TVDBMapper.mapSeasonTypes`. -/
def mapSeasonTypes (seasonTypes : Option (List TVDBSeasonType)) :
    Option (List SeasonType) :=
  match seasonTypes with
  | none => none
  | some sts =>
      if sts.isEmpty then none
      else
        some (sts.map (fun st =>
          { id := natStr st.id, source := "tvdb", tag := st.name,
            title := match st.alternateName with
                     | some a => if a = "" then st.name else a
                     | none => st.name }))

/-- `TVDBMapper.getSeasonTypeShortTag`: the fixed `typeMap` lookup with a
lowercased pass-through for unknown ordering-type words. -/
def getSeasonTypeShortTag (seasonType : Option TVDBSeasonType) : String :=
  match seasonType with
  | none => "default"
  | some st =>
      let t := toLowerStr st.type
      if t = "default" then "default"
      else if t = "official" then "default"
      else if t = "dvd" then "dvd"
      else if t = "absolute" then "absolute"
      else if t = "alternate" then "alternate"
      else if t = "regional" then "regional"
      else t

/-- `TVDBMapper.mapEpisode`. -/
def mapEpisode (episode : TVDBEpisode) (seriesId : Nat)
    (showTitle showGuid seasonTitle seasonGuid : String)
    (showThumb seasonThumb : Option String) : EpisodeMetadata :=
  let ratingKey := "tvdb-episode-" ++ natStr seriesId ++ "-" ++
    intStr episode.seasonNumber ++ "-" ++ intStr episode.number
  let parentRatingKey := "tvdb-season-" ++ natStr seriesId ++ "-" ++
    intStr episode.seasonNumber
  let grandparentRatingKey := "tvdb-show-" ++ natStr seriesId
  let crew := mapCrew episode.characters
  let epTitle := (orUndef episode.name).getD ("Episode " ++ intStr episode.number)
  { type := "episode"
    ratingKey := ratingKey
    key := constructMetadataKey ratingKey
    guid := constructGuid TV_PROVIDER_IDENTIFIER "episode" ratingKey
    title := epTitle
    originallyAvailableAt := (orUndef episode.aired).getD ""
    year := match orUndef episode.aired with
            | some a => some (dateYear a)
            | none => none
    summary := orUndef episode.overview
    thumb := orUndef episode.image
    duration := match episode.runtime with
                | some r => if r = 0 then none else some (r * 60 * 1000)
                | none => none
    index := episode.number
    parentIndex := episode.seasonNumber
    parentRatingKey := parentRatingKey
    parentKey := constructMetadataKey parentRatingKey
    parentGuid := seasonGuid
    parentType := "season"
    parentTitle := seasonTitle
    parentThumb := seasonThumb
    grandparentRatingKey := grandparentRatingKey
    grandparentKey := constructMetadataKey grandparentRatingKey
    grandparentGuid := showGuid
    grandparentType := "show"
    grandparentTitle := showTitle
    grandparentThumb := showThumb
    Image := match orUndef episode.image with
             | some img => some [{ type := "snapshot", url := img, alt := epTitle }]
             | none => none
    Guid := some
      ([{ id := createExternalGuidNat "tvdb" episode.id }] ++
       (match episode.remoteIds with
        | none => []
        | some rids =>
            match rids.find? (fun r => r.type == remoteIMDB) with
            | some imdbRemote =>
                [{ id := createExternalGuidStr "imdb" imdbRemote.id }]
            | none => []))
    Role := mapCast episode.characters
    Director := crew.Director
    Producer := crew.Producer
    Writer := crew.Writer }

/-- `TVDBMapper.mapSeason`.  Note: the source computes
`seasonTypeShort` from `getSeasonTypeShortTag(season.type)` and then
builds the ratingKey without it; the unused local is kept to mirror
that. -/
def mapSeason (season : TVDBSeason) (seriesId : Nat)
    (showTitle showGuid : String) (showThumb : Option String)
    (includeChildren : Bool) : SeasonMetadata :=
  let seasonTypeShort := getSeasonTypeShortTag (some season.type)
  let ratingKey := "tvdb-season-" ++ natStr seriesId ++ "-" ++
    intStr season.number
  let parentRatingKey := "tvdb-show-" ++ natStr seriesId
  let seasonTitle := (orUndef season.name).getD
    ("Season " ++ intStr season.number)
  let guid := constructGuid TV_PROVIDER_IDENTIFIER "season" ratingKey
  let image0 : Option (List Image) :=
    match orUndef season.image with
    | some img => some [{ type := "coverPoster", url := img, alt := seasonTitle }]
    | none => none
  let image1 : Option (List Image) :=
    match season.artwork with
    | some aw => if aw.isEmpty then image0 else mapImages (some aw) seasonTitle
    | none => image0
  let children : Option EpisodeChildren :=
    if includeChildren then
      match season.episodes with
      | some eps =>
          if eps.isEmpty then none
          else
            some { size := eps.length,
                   Metadata := eps.map (fun episode =>
                     mapEpisode episode seriesId showTitle showGuid
                       seasonTitle guid showThumb (orUndef season.image)) }
      | none => none
    else none
  let _ := seasonTypeShort
  { type := "season"
    ratingKey := ratingKey
    key := constructMetadataKeyWithChildren ratingKey
    guid := guid
    title := seasonTitle
    originallyAvailableAt := ""
    index := season.number
    parentRatingKey := parentRatingKey
    parentKey := constructMetadataKey parentRatingKey
    parentGuid := showGuid
    parentType := "show"
    parentTitle := showTitle
    parentThumb := showThumb
    thumb := orUndef season.image
    Guid := some [{ id := createExternalGuidNat "tvdb" season.id }]
    Image := image1
    Children := children }

/-- Options of `TVDBMapper.mapSeries`; calling without options is the
record with both defaults. -/
structure MapSeriesOptions where
  includeChildren : Bool := false
  country : Option String := none
deriving Repr, DecidableEq

/-- `TVDBMapper.mapSeries`. -/
def mapSeries (series : TVDBSeriesExtended)
    (options : MapSeriesOptions := {}) : ShowMetadata :=
  let ratingKey := "tvdb-show-" ++ natStr series.id
  let crew := mapCrew series.characters
  let guid := constructGuid TV_PROVIDER_IDENTIFIER "show" ratingKey
  let children : Option SeasonChildren :=
    if options.includeChildren then
      match series.seasons with
      | some seasons =>
          if seasons.isEmpty then none
          else
            let seasonMetadata :=
              (seasons.filter (fun season =>
                  season.type.type == "default" ||
                  season.type.type == "official")).map (fun season =>
                mapSeason season series.id series.name guid
                  (orUndef series.image) false)
            some { size := seasonMetadata.length, Metadata := seasonMetadata }
      | none => none
    else none
  { type := "show"
    ratingKey := ratingKey
    key := constructMetadataKeyWithChildren ratingKey
    guid := guid
    title := series.name
    originallyAvailableAt := (orUndef series.firstAired).getD ""
    year := match orUndef series.firstAired with
            | some f => some (dateYear f)
            | none => none
    summary := orUndef series.overview
    thumb := orUndef series.image
    art := ((series.artworks.getD []).find?
             (fun a => a.type == artworkBACKGROUND)).map (fun a => a.image)
    contentRating := getContentRating series options.country
    duration := match series.averageRuntime with
                | some r => if r = 0 then none else some (r * 60 * 1000)
                | none => none
    studio := series.originalNetwork.map (fun n => n.name)
    Image := mapImages series.artworks series.name
    Genre := mapGenres series
    Guid := mapExternalGuids series
    Country := mapCountries series
    Role := mapCast series.characters
    Director := crew.Director
    Producer := crew.Producer
    Writer := crew.Writer
    Studio := mapStudios series
    Rating := mapRatings series
    Network := mapNetworks series
    SeasonType := mapSeasonTypes series.seasonTypes
    Children := children }

/-! ## Sanity replays of the unit-test fixtures -/

example :
    (mapSeason
      { id := 12345, number := 8, name := some "Season 8",
        image := some "https://artworks.thetvdb.com/season-poster.jpg",
        type := { id := 1, name := "Aired Order", type := "official" } }
      152831 "Adventure Time"
      "tv.plex.agents.custom.example.thetvdb.tv://show/tvdb-show-152831"
      none false).ratingKey = "tvdb-season-152831-8" := by decide

example :
    (mapSeason
      { id := 12345, number := 8, name := some "Season 8",
        image := some "https://artworks.thetvdb.com/season-poster.jpg",
        type := { id := 1, name := "Aired Order", type := "official" } }
      152831 "Adventure Time"
      "tv.plex.agents.custom.example.thetvdb.tv://show/tvdb-show-152831"
      none false).guid =
    "tv.plex.agents.custom.example.thetvdb.tv://season/tvdb-season-152831-8" := by
  decide

example :
    (mapEpisode
      { id := 1418023, name := some "The Wild Hunt", aired := some "2017-09-17",
        runtime := some 11, number := 1, seasonNumber := 10 }
      152831 "Adventure Time" "sg" "Season 10" "pg" none none).ratingKey =
    "tvdb-episode-152831-10-1" := by decide

example :
    (mapEpisode
      { id := 1418023, name := some "The Wild Hunt", aired := some "2017-09-17",
        runtime := some 11, number := 1, seasonNumber := 10 }
      152831 "Adventure Time" "sg" "Season 10" "pg" none none).duration =
    some 660000 := by decide

example :
    (mapEpisode
      { id := 1418023, name := some "The Wild Hunt", aired := some "2017-09-17",
        runtime := some 11, number := 1, seasonNumber := 10 }
      152831 "Adventure Time" "sg" "Season 10" "pg" none none).year =
    some 2017 := by decide

/-! ## C8 / C9: duration from averageRuntime -/

/-- A series record whose `averageRuntime` is present and equal to `0`. -/
def zeroRuntimeSeries : TVDBSeriesExtended :=
  { id := 7, name := "Z", averageRuntime := some 0 }

/-- C8 counterexample: the claim "duration = averageRuntime × 60000 when
averageRuntime is present" fails when the present value is `0`: the code
yields no duration, not `some 0`. -/
theorem mapSeries_duration_zero_counterexample :
    zeroRuntimeSeries.averageRuntime = some 0 ∧
    (mapSeries zeroRuntimeSeries {}).duration ≠ some (0 * 60000) ∧
    (mapSeries zeroRuntimeSeries {}).duration = none := by
  refine ⟨rfl, ?_, rfl⟩
  decide

/-- C8 (amended): duration is averageRuntime × 60000 when averageRuntime
is present and nonzero, and absent when averageRuntime is absent or zero;
in particular averageRuntime = 11 gives 660000. -/
theorem mapSeries_duration (series : TVDBSeriesExtended)
    (options : MapSeriesOptions) :
    (series.averageRuntime = none → (mapSeries series options).duration = none) ∧
    (∀ r : Int, series.averageRuntime = some r → r ≠ 0 →
      (mapSeries series options).duration = some (r * 60000)) ∧
    (mapSeries { id := 152831, name := "Adventure Time",
                 averageRuntime := some 11 } {}).duration = some 660000 := by
  refine ⟨?_, ?_, by decide⟩
  · intro h
    simp [mapSeries, h]
  · intro r h hr
    simp [mapSeries, h, hr]
    ring

/-- C8 witness: the amended duration rule evaluated at a concrete series
with averageRuntime 11. -/
theorem mapSeries_duration_witness :
    (({ id := 1, name := "W", averageRuntime := some 11 } :
        TVDBSeriesExtended).averageRuntime = some 11 ∧ (11 : Int) ≠ 0) ∧
    (mapSeries { id := 1, name := "W", averageRuntime := some 11 } {}).duration =
      some (11 * 60000) :=
  ⟨⟨rfl, by decide⟩,
    (mapSeries_duration { id := 1, name := "W", averageRuntime := some 11 }
      {}).2.1 11 rfl (by decide)⟩

/-- C9: a present-but-zero averageRuntime produces an absent duration
(the implementation tests truthiness, and `0` is falsy). -/
theorem mapSeries_duration_absent_at_zero (series : TVDBSeriesExtended)
    (options : MapSeriesOptions) (h : series.averageRuntime = some 0) :
    (mapSeries series options).duration = none := by
  simp [mapSeries, h]

/-- C9 witness: evaluated at a concrete series with averageRuntime 0. -/
theorem mapSeries_duration_absent_at_zero_witness :
    zeroRuntimeSeries.averageRuntime = some 0 ∧
    (mapSeries zeroRuntimeSeries {}).duration = none :=
  ⟨rfl, mapSeries_duration_absent_at_zero zeroRuntimeSeries {} rfl⟩

/-! ## C10: absent country behaves as country = "US" -/

/-- A series whose only content rating is the US one (stored lowercase). -/
def usaRatedSeries : TVDBSeriesExtended :=
  { id := 5, name := "U",
    contentRatings := some [{ name := "TV-PG", country := some "usa" }] }

/-- C10: `mapSeries` without a country equals `mapSeries` with
country = "US" on every series (the JS default parameter), and a series
with only a US/USA entry still yields the bare rating name. -/
theorem mapSeries_country_defaults_to_US (series : TVDBSeriesExtended)
    (ic : Bool) :
    mapSeries series { includeChildren := ic, country := none } =
      mapSeries series { includeChildren := ic, country := some "US" } ∧
    (mapSeries usaRatedSeries {}).contentRating = some "TV-PG" := by
  exact ⟨rfl, by decide⟩

/-! ## C2: the season ordering tag never reaches the season ratingKey -/

/-- A DVD-ordering season. -/
def dvdSeasonInput : TVDBSeason :=
  { id := 99, number := 1, name := some "Season 1",
    type := { id := 2, name := "DVD Order", type := "dvd" } }

/-- C2: `getSeasonTypeShortTag` maps the season's ordering type "dvd" to
the short tag "dvd", but `mapSeason` builds the ratingKey without it —
for every season the ratingKey is `tvdb-season-{seriesId}-{number}`, so
the DVD season's identifier is not `tvdb-season-15260-1-dvd` as the claim
requires. -/
theorem mapSeason_ratingKey_drops_ordering_tag :
    getSeasonTypeShortTag (some dvdSeasonInput.type) = "dvd" ∧
    (mapSeason dvdSeasonInput 15260 "T" "g" none false).ratingKey =
      "tvdb-season-15260-1" ∧
    (mapSeason dvdSeasonInput 15260 "T" "g" none false).ratingKey ≠
      "tvdb-season-15260-1-dvd" ∧
    (∀ (season : TVDBSeason) (sid : Nat) (st sg : String)
        (thumb : Option String) (ic : Bool),
      (mapSeason season sid st sg thumb ic).ratingKey =
        "tvdb-season-" ++ natStr sid ++ "-" ++ intStr season.number) := by
  refine ⟨by decide, by decide, by decide, ?_⟩
  intro season sid st sg thumb ic
  rfl

/-! ## C5: content-rating resolution -/

lemma contentRatingMatches_iff (b : Bool) (n : String)
    (r : TVDBContentRating) :
    contentRatingMatches b n r = true ↔
      ∃ rc, r.country = some rc ∧
        (toUpperStr rc = n ∨
          (b = true ∧ (toUpperStr rc = "USA" ∨ toUpperStr rc = "US"))) := by
  cases hc : r.country with
  | none => simp [contentRatingMatches, hc]
  | some rc =>
      simp only [contentRatingMatches, hc, Bool.or_eq_true, Bool.and_eq_true,
                 beq_iff_eq, Option.some.injEq]
      constructor
      · intro h
        refine ⟨rc, rfl, ?_⟩
        tauto
      · rintro ⟨rc', hrc', h⟩
        subst hrc'
        tauto

/-- C5: content-rating resolution matches entries by uppercased country
equality with US/USA interchangeable; a US-equivalent request returns the
bare rating name, a non-US request returns `lowercase-code/name`, and no
match yields an absent rating.  Concretely, country "USA" against a stored
`usa`/`TV-PG` entry yields `TV-PG`, and country "GB" with no GB entry
yields none. -/
theorem contentRating_resolution (series : TVDBSeriesExtended)
    (rs : List TVDBContentRating) (c : String)
    (hrs : series.contentRatings = some rs) :
    (getContentRating series (some c) = none ↔
      ∀ r ∈ rs, ¬ ∃ rc, r.country = some rc ∧
        (toUpperStr rc = toUpperStr c ∨
          ((toUpperStr c = "US" ∨ toUpperStr c = "USA") ∧
           (toUpperStr rc = "USA" ∨ toUpperStr rc = "US")))) ∧
    (∀ r, rs.find? (contentRatingMatches
        (toUpperStr c == "US" || toUpperStr c == "USA")
        (toUpperStr c)) = some r →
      ((toUpperStr c = "US" ∨ toUpperStr c = "USA") →
        getContentRating series (some c) = some r.name) ∧
      ((¬ (toUpperStr c = "US" ∨ toUpperStr c = "USA")) →
        ∀ rc, r.country = some rc → toLowerStr rc ≠ "" →
        getContentRating series (some c) =
          some (toLowerStr rc ++ "/" ++ r.name))) ∧
    getContentRating usaRatedSeries (some "USA") = some "TV-PG" ∧
    getContentRating usaRatedSeries (some "GB") = none := by
  refine ⟨?_, ?_, by decide, by decide⟩
  · cases hf : rs.find? (contentRatingMatches
        (toUpperStr c == "US" || toUpperStr c == "USA") (toUpperStr c)) with
    | none =>
        have hall := List.find?_eq_none.mp hf
        simp only [getContentRating, hrs, Option.getD_some, hf]
        constructor
        · intro _ r hr hex
          refine absurd ((contentRatingMatches_iff _ _ r).2 ?_)
            (by simpa using hall r hr)
          obtain ⟨rc, hrc, hor⟩ := hex
          refine ⟨rc, hrc, ?_⟩
          rcases hor with h | ⟨hus, h2⟩
          · exact Or.inl h
          · exact Or.inr ⟨by rcases hus with h | h <;> simp [h], h2⟩
        · intro _; trivial
    | some r =>
        have hmem := List.mem_of_find?_eq_some hf
        have hpred := List.find?_some hf
        rw [contentRatingMatches_iff] at hpred
        obtain ⟨rc, hrc, hor⟩ := hpred
        simp only [getContentRating, hrs, Option.getD_some, hf]
        constructor
        · intro hnone
          split at hnone <;> simp at hnone
        · intro hall
          refine absurd ⟨rc, hrc, ?_⟩ (hall r hmem)
          rcases hor with h | ⟨hb, h2⟩
          · exact Or.inl h
          · refine Or.inr ⟨?_, h2⟩
            simpa [Bool.or_eq_true, beq_iff_eq] using hb
  · intro r hf
    constructor
    · intro hus
      have hb : (toUpperStr c == "US" || toUpperStr c == "USA") = true := by
        rcases hus with h | h <;> simp [h]
      simp only [getContentRating, hrs, Option.getD_some, hf]
      rw [if_pos hb]
    · intro hnus rc hrc hne
      push_neg at hnus
      have hb : ¬ ((toUpperStr c == "US" || toUpperStr c == "USA") = true) := by
        simp [hnus.1, hnus.2]
      simp only [getContentRating, hrs, Option.getD_some, hf]
      rw [if_neg hb, hrc]
      simp [hne]

/-- C5 witness: resolution evaluated at the US-only fixture with requested
country "USA". -/
theorem contentRating_resolution_witness :
    usaRatedSeries.contentRatings =
      some [{ name := "TV-PG", country := some "usa" }] ∧
    ((getContentRating usaRatedSeries (some "USA") = none ↔
      ∀ r ∈ [({ name := "TV-PG", country := some "usa" } :
          TVDBContentRating)], ¬ ∃ rc, r.country = some rc ∧
        (toUpperStr rc = toUpperStr "USA" ∨
          ((toUpperStr "USA" = "US" ∨ toUpperStr "USA" = "USA") ∧
           (toUpperStr rc = "USA" ∨ toUpperStr rc = "US")))) ∧
    (∀ r, [({ name := "TV-PG", country := some "usa" } :
        TVDBContentRating)].find? (contentRatingMatches
        (toUpperStr "USA" == "US" || toUpperStr "USA" == "USA")
        (toUpperStr "USA")) = some r →
      ((toUpperStr "USA" = "US" ∨ toUpperStr "USA" = "USA") →
        getContentRating usaRatedSeries (some "USA") = some r.name) ∧
      ((¬ (toUpperStr "USA" = "US" ∨ toUpperStr "USA" = "USA")) →
        ∀ rc, r.country = some rc → toLowerStr rc ≠ "" →
        getContentRating usaRatedSeries (some "USA") =
          some (toLowerStr rc ++ "/" ++ r.name))) ∧
    getContentRating usaRatedSeries (some "USA") = some "TV-PG" ∧
    getContentRating usaRatedSeries (some "GB") = none) :=
  ⟨rfl, contentRating_resolution usaRatedSeries _ "USA" rfl⟩

/-! ## C4: cast mapping — filter, stable sort, cap, renumber -/

lemma insBySort_perm (x : TVDBCharacter) :
    ∀ l, List.Perm (insBySort x l) (x :: l) := by
  intro l
  induction l with
  | nil => simp [insBySort]
  | cons y ys ih =>
      simp only [insBySort]
      split
      · exact (ih.cons y).trans (List.Perm.swap x y ys)
      · exact List.Perm.refl _

lemma sortBySort_perm (l : List TVDBCharacter) :
    List.Perm (sortBySort l) l := by
  induction l with
  | nil => simp [sortBySort]
  | cons x xs ih => exact (insBySort_perm x (sortBySort xs)).trans (ih.cons x)

lemma mem_insBySort {x a : TVDBCharacter} {l : List TVDBCharacter} :
    a ∈ insBySort x l ↔ a = x ∨ a ∈ l := by
  rw [(insBySort_perm x l).mem_iff]
  simp

lemma pairwise_insBySort (x : TVDBCharacter) :
    ∀ l, List.Pairwise (fun a b : TVDBCharacter => a.sort ≤ b.sort) l →
      List.Pairwise (fun a b : TVDBCharacter => a.sort ≤ b.sort)
        (insBySort x l) := by
  intro l
  induction l with
  | nil => intro _; simp [insBySort]
  | cons y ys ih =>
      intro h
      rw [List.pairwise_cons] at h
      simp only [insBySort]
      split
      · rename_i hlt
        rw [List.pairwise_cons]
        refine ⟨?_, ih h.2⟩
        intro a ha
        rcases mem_insBySort.mp ha with rfl | ha
        · omega
        · exact h.1 a ha
      · rename_i hge
        rw [List.pairwise_cons]
        refine ⟨?_, List.pairwise_cons.mpr h⟩
        intro a ha
        rcases List.mem_cons.mp ha with rfl | ha
        · omega
        · have := h.1 a ha
          omega

lemma sortBySort_pairwise (l : List TVDBCharacter) :
    List.Pairwise (fun a b : TVDBCharacter => a.sort ≤ b.sort)
      (sortBySort l) := by
  induction l with
  | nil => simp [sortBySort]
  | cons x xs ih => exact pairwise_insBySort x (sortBySort xs) ih

/-- Stability, one insertion at a time: the inserted element lands in
front of every element with an equal (or larger) key, and the walked-past
elements all have strictly smaller keys. -/
lemma filter_insBySort (k : Int) (x : TVDBCharacter) :
    ∀ l, (insBySort x l).filter (fun c => c.sort == k) =
      if x.sort == k then x :: l.filter (fun c => c.sort == k)
      else l.filter (fun c => c.sort == k) := by
  intro l
  induction l with
  | nil => by_cases hx : x.sort = k <;> simp [insBySort, hx]
  | cons y ys ih =>
      simp only [insBySort]
      split
      · rename_i hlt
        by_cases hx : x.sort = k
        · have hy : ¬ y.sort = k := by omega
          simp only [List.filter_cons, ih]
          simp [hx, hy]
        · simp only [List.filter_cons, ih]
          by_cases hy : y.sort = k <;> simp [hx, hy]
      · by_cases hx : x.sort = k <;> simp [List.filter_cons, hx]

/-- Stability of the whole sort: for every key, the equal-key elements
appear in `sortBySort l` exactly as they appear in `l`. -/
lemma sortBySort_filter (k : Int) :
    ∀ l : List TVDBCharacter,
      (sortBySort l).filter (fun c => c.sort == k) =
        l.filter (fun c => c.sort == k) := by
  intro l
  induction l with
  | nil => rfl
  | cons x xs ih =>
      show (insBySort x (sortBySort xs)).filter _ = _
      rw [filter_insBySort]
      by_cases hx : x.sort = k <;> simp [hx, ih, List.filter_cons]

lemma buildCast_length : ∀ (i : Nat) (l : List TVDBCharacter),
    (buildCast i l).length = l.length := by
  intro i l
  induction l generalizing i with
  | nil => rfl
  | cons c rest ih => simp [buildCast, ih]

lemma buildCast_get : ∀ (l : List TVDBCharacter) (i j : Nat)
    (h : j < (buildCast i l).length),
    ((buildCast i l).get ⟨j, h⟩).order = some (i + j) := by
  intro l
  induction l with
  | nil => intro i j h; simp [buildCast] at h
  | cons c rest ih =>
      intro i j h
      cases j with
      | zero => simp [buildCast]
      | succ j' =>
          have h' : j' < (buildCast (i + 1) rest).length := by
            simpa [buildCast] using h
          have := ih (i + 1) j' h'
          simpa [buildCast, Nat.add_assoc, Nat.add_comm 1 j'] using this

/-- Replacing every `sort` value through an order-embedding `g`. -/
def updSort (g : Int → Int) (c : TVDBCharacter) : TVDBCharacter :=
  { c with sort := g c.sort }

lemma updSort_sort (g : Int → Int) (c : TVDBCharacter) :
    (updSort g c).sort = g c.sort := rfl

lemma insBySort_map_updSort {g : Int → Int}
    (hg : ∀ a b : Int, a ≤ b ↔ g a ≤ g b) (x : TVDBCharacter) :
    ∀ l, insBySort (updSort g x) (l.map (updSort g)) =
      (insBySort x l).map (updSort g) := by
  have hlt : ∀ a b : Int, a < b ↔ g a < g b := by
    intro a b
    rw [Int.lt_iff_le_not_le, Int.lt_iff_le_not_le, hg a b, hg b a]
  intro l
  induction l with
  | nil => rfl
  | cons y ys ih =>
      simp only [List.map_cons, insBySort, updSort_sort]
      by_cases hc : y.sort < x.sort
      · rw [if_pos ((hlt _ _).mp hc), if_pos hc, ih, List.map_cons]
      · rw [if_neg (fun hgc => hc ((hlt _ _).mpr hgc)), if_neg hc,
            List.map_cons, List.map_cons]

lemma sortBySort_map_updSort {g : Int → Int}
    (hg : ∀ a b : Int, a ≤ b ↔ g a ≤ g b) :
    ∀ l, sortBySort (l.map (updSort g)) = (sortBySort l).map (updSort g) := by
  intro l
  induction l with
  | nil => rfl
  | cons x xs ih =>
      show insBySort (updSort g x) (sortBySort (xs.map (updSort g))) = _
      rw [ih, insBySort_map_updSort hg]
      rfl

lemma buildCast_map_updSort (g : Int → Int) :
    ∀ (i : Nat) (l : List TVDBCharacter),
      buildCast i (l.map (updSort g)) = buildCast i l := by
  intro i l
  induction l generalizing i with
  | nil => rfl
  | cons c rest ih => simp [buildCast, updSort, ih]

/-- C4: `mapCast` keeps exactly the type-code-3 characters, stable-sorts
them by the upstream `sort` ascending (sorted output whose equal-key runs
preserve input order), caps at 1000, assigns 1-based `order` by output
position, and is unchanged by any order-preserving rewrite of the `sort`
values (magnitude and gaps are irrelevant). -/
theorem mapCast_spec (cs : List TVDBCharacter) (hne : cs ≠ []) :
    ∃ ps sortedActors,
      mapCast (some cs) = some ps ∧
      List.Perm sortedActors (cs.filter (fun c => c.type == 3)) ∧
      List.Pairwise (fun a b : TVDBCharacter => a.sort ≤ b.sort)
        sortedActors ∧
      (∀ k : Int, sortedActors.filter (fun c => c.sort == k) =
        (cs.filter (fun c => c.type == 3)).filter (fun c => c.sort == k)) ∧
      ps = buildCast 1 (sortedActors.take 1000) ∧
      ps.length = min (cs.filter (fun c => c.type == 3)).length 1000 ∧
      (∀ i (h : i < ps.length), (ps.get ⟨i, h⟩).order = some (i + 1)) ∧
      (∀ g : Int → Int, (∀ a b : Int, a ≤ b ↔ g a ≤ g b) →
        mapCast (some (cs.map (updSort g))) = mapCast (some cs)) := by
  refine ⟨buildCast 1 ((sortBySort (cs.filter (fun c => c.type == 3))).take 1000),
          sortBySort (cs.filter (fun c => c.type == 3)),
          ?_, sortBySort_perm _, sortBySort_pairwise _,
          fun k => sortBySort_filter k _, rfl, ?_, ?_, ?_⟩
  · simp [mapCast, hne]
  · rw [buildCast_length, List.length_take,
        (sortBySort_perm (cs.filter (fun c => c.type == 3))).length_eq]
    exact Nat.min_comm _ _
  · intro i h
    rw [buildCast_get]
    rw [Nat.add_comm]
  · intro g hg
    have hne' : cs.map (updSort g) ≠ [] := by
      simpa using hne
    simp only [mapCast]
    rw [if_neg (by simpa [List.isEmpty_iff] using hne'),
        if_neg (by simpa [List.isEmpty_iff] using hne)]
    have hfilter : (cs.map (updSort g)).filter (fun c => c.type == 3) =
        (cs.filter (fun c => c.type == 3)).map (updSort g) := by
      rw [List.filter_map]
      rfl
    rw [hfilter, sortBySort_map_updSort hg, ← List.map_take,
        buildCast_map_updSort]

/-- C4 witness: the cast specification evaluated on a concrete character
list with a duplicate sort key and a non-actor entry. -/
theorem mapCast_spec_witness :
    ([({ id := 1, name := "A", type := 3, sort := 7, personName := "PA" } :
        TVDBCharacter),
      { id := 2, name := "B", type := 3, sort := 7, personName := "PB" },
      { id := 3, name := "C", type := 1, sort := 0, personName := "PC" },
      { id := 4, name := "D", type := 3, sort := 2, personName := "PD" }] ≠
        ([] : List TVDBCharacter)) ∧
    (∃ ps sortedActors,
      mapCast (some
        [({ id := 1, name := "A", type := 3, sort := 7, personName := "PA" } :
            TVDBCharacter),
         { id := 2, name := "B", type := 3, sort := 7, personName := "PB" },
         { id := 3, name := "C", type := 1, sort := 0, personName := "PC" },
         { id := 4, name := "D", type := 3, sort := 2, personName := "PD" }]) =
        some ps ∧
      List.Perm sortedActors
        (([({ id := 1, name := "A", type := 3, sort := 7, personName := "PA" } :
            TVDBCharacter),
          { id := 2, name := "B", type := 3, sort := 7, personName := "PB" },
          { id := 3, name := "C", type := 1, sort := 0, personName := "PC" },
          { id := 4, name := "D", type := 3, sort := 2, personName := "PD" }]).filter
            (fun c => c.type == 3)) ∧
      List.Pairwise (fun a b : TVDBCharacter => a.sort ≤ b.sort)
        sortedActors ∧
      (∀ k : Int, sortedActors.filter (fun c => c.sort == k) =
        (([({ id := 1, name := "A", type := 3, sort := 7, personName := "PA" } :
            TVDBCharacter),
          { id := 2, name := "B", type := 3, sort := 7, personName := "PB" },
          { id := 3, name := "C", type := 1, sort := 0, personName := "PC" },
          { id := 4, name := "D", type := 3, sort := 2, personName := "PD" }]).filter
            (fun c => c.type == 3)).filter (fun c => c.sort == k)) ∧
      ps = buildCast 1 (sortedActors.take 1000) ∧
      ps.length = min
        (([({ id := 1, name := "A", type := 3, sort := 7, personName := "PA" } :
            TVDBCharacter),
          { id := 2, name := "B", type := 3, sort := 7, personName := "PB" },
          { id := 3, name := "C", type := 1, sort := 0, personName := "PC" },
          { id := 4, name := "D", type := 3, sort := 2, personName := "PD" }]).filter
            (fun c => c.type == 3)).length 1000 ∧
      (∀ i (h : i < ps.length), (ps.get ⟨i, h⟩).order = some (i + 1)) ∧
      (∀ g : Int → Int, (∀ a b : Int, a ≤ b ↔ g a ≤ g b) →
        mapCast (some
          (([({ id := 1, name := "A", type := 3, sort := 7, personName := "PA" } :
              TVDBCharacter),
            { id := 2, name := "B", type := 3, sort := 7, personName := "PB" },
            { id := 3, name := "C", type := 1, sort := 0, personName := "PC" },
            { id := 4, name := "D", type := 3, sort := 2, personName := "PD" }]).map
              (updSort g))) =
        mapCast (some
          [({ id := 1, name := "A", type := 3, sort := 7, personName := "PA" } :
              TVDBCharacter),
           { id := 2, name := "B", type := 3, sort := 7, personName := "PB" },
           { id := 3, name := "C", type := 1, sort := 0, personName := "PC" },
           { id := 4, name := "D", type := 3, sort := 2, personName := "PD" }]))) :=
  ⟨by decide, mapCast_spec _ (by decide)⟩

/-- The cast of the fixture list above is sorted `D` (sort 2) then `A`,`B`
(sort 7, input order preserved) with orders 1, 2, 3. -/
example :
    mapCast (some
      [({ id := 1, name := "A", type := 3, sort := 7, personName := "PA" } :
          TVDBCharacter),
       { id := 2, name := "B", type := 3, sort := 7, personName := "PB" },
       { id := 3, name := "C", type := 1, sort := 0, personName := "PC" },
       { id := 4, name := "D", type := 3, sort := 2, personName := "PD" }]) =
    some [{ tag := "PD", role := some "D", order := some 1 },
          { tag := "PA", role := some "A", order := some 2 },
          { tag := "PB", role := some "B", order := some 3 }] := by decide

/-! ## The lookup service (`MetadataService`) -/

/-- `Array.prototype.slice(start, end)` on lists, with JS's negative-index
and clamping semantics. -/
def jsSlice {α : Type} (l : List α) (s e : Int) : List α :=
  let n : Int := l.length
  let s' := if s < 0 then max (n + s) 0 else min s n
  let e' := if e < 0 then max (n + e) 0 else min e n
  (l.drop s'.toNat).take (e' - s').toNat

/-- `PagingOptions` of `MetadataService` (`containerSize`,
`containerStart`). -/
structure PagingOptions where
  containerSize : Option Int := none
  containerStart : Option Int := none
deriving Repr, DecidableEq

/-- `MetadataServiceOptions` (the fields the service reads). -/
structure MetaOptions where
  includeChildren : Bool := false
  country : Option String := none
deriving Repr, DecidableEq

/-- The upstream client (`TVDBClient`) as an oracle of total fetches;
the lookup-by-number calls may yield nothing. -/
structure TVDBClientModel where
  getSeriesDetails : Nat → TVDBSeriesExtended
  getSeasonByNumber : Nat → Nat → String → Option TVDBSeason
  getSeasonDetails : Nat → TVDBSeason
  getEpisodeByNumber : Nat → Nat → Nat → String → Option TVDBEpisode
  getEpisodeDetails : Nat → TVDBEpisode

/-- The full filtered child list of `getChildren`'s show branch: seasons
of the canonical (`default`/`official`) ordering with number ≥ 0, mapped
in upstream order. -/
def childSeasons (seriesDetails : TVDBSeriesExtended) (seriesId : Nat) :
    List SeasonMetadata :=
  let showGuid :=
    TV_PROVIDER_IDENTIFIER ++ "://show/tvdb-show-" ++ natStr seriesId
  (((seriesDetails.seasons.getD []).filter
      (fun s => s.type.type == "default" || s.type.type == "official")).filter
      (fun s => decide (0 ≤ s.number))).map
    (fun season => mapSeason season seriesId seriesDetails.name showGuid
      (orUndef seriesDetails.image) false)

/-- Container produced by `getChildren` for a show. -/
structure SeasonContainer where
  offset : Int
  totalSize : Nat
  identifier : String
  size : Nat
  Metadata : List SeasonMetadata
deriving Repr, DecidableEq

/-- The show branch of `MetadataService.getChildren`: build the full
filtered child list, then slice it with the 1-based page window. -/
def getChildrenShow (seriesDetails : TVDBSeriesExtended) (seriesId : Nat)
    (paging : PagingOptions) : SeasonContainer :=
  let containerSize := paging.containerSize.getD 20
  let containerStart := paging.containerStart.getD 1
  let allSeasons := childSeasons seriesDetails seriesId
  let startIndex := containerStart - 1
  let endIndex := startIndex + containerSize
  let pagedSeasons := jsSlice allSeasons startIndex endIndex
  { offset := startIndex
    totalSize := allSeasons.length
    identifier := TV_PROVIDER_IDENTIFIER
    size := pagedSeasons.length
    Metadata := pagedSeasons }

/-- One metadata item of a response container. -/
inductive MetaPayload where
  | showItem (m : ShowMetadata)
  | seasonItem (m : SeasonMetadata)
  | episodeItem (m : EpisodeMetadata)
deriving Repr, DecidableEq

structure MetadataResponse where
  offset : Int
  totalSize : Nat
  identifier : String
  size : Nat
  Metadata : List MetaPayload
deriving Repr, DecidableEq

/-- `Invalid ratingKey format: ${ratingKey}`. -/
def invalidKeyMsg (ratingKey : String) : String :=
  "Invalid ratingKey format: " ++ ratingKey

/-- `Season ${seasonNumber} not found for series ${seriesId}`. -/
def seasonNotFoundMsg (seasonNumber seriesId : Nat) : String :=
  "Season " ++ natStr seasonNumber ++ " not found for series " ++
    natStr seriesId

/-- `Episode S${seasonNumber}E${episodeNumber} not found for series
${seriesId}`. -/
def episodeNotFoundMsg (seasonNumber episodeNumber seriesId : Nat) : String :=
  "Episode S" ++ natStr seasonNumber ++ "E" ++ natStr episodeNumber ++
    " not found for series " ++ natStr seriesId

/-- `MetadataService.getShow`. -/
def getShow (client : TVDBClientModel) (seriesId : Nat)
    (options : MetaOptions) : MetadataResponse :=
  let seriesDetails := client.getSeriesDetails seriesId
  let showMetadata := mapSeries seriesDetails
    { includeChildren := options.includeChildren, country := options.country }
  { offset := 0, totalSize := 1, identifier := TV_PROVIDER_IDENTIFIER,
    size := 1, Metadata := [.showItem showMetadata] }

/-- `MetadataService.getSeason`: throws (models as `Except.error`) when the
lookup-by-number finds no season. -/
def getSeason (client : TVDBClientModel) (seriesId seasonNumber : Nat)
    (options : MetaOptions) (seasonType : Option String) :
    Except String MetadataResponse :=
  let seriesDetails := client.getSeriesDetails seriesId
  match client.getSeasonByNumber seriesId seasonNumber
      (seasonType.getD "default") with
  | none => .error (seasonNotFoundMsg seasonNumber seriesId)
  | some season =>
      let seasonDetails :=
        if options.includeChildren then client.getSeasonDetails season.id
        else season
      let showGuid :=
        TV_PROVIDER_IDENTIFIER ++ "://show/tvdb-show-" ++ natStr seriesId
      let seasonMetadata := mapSeason seasonDetails seriesId
        seriesDetails.name showGuid (orUndef seriesDetails.image)
        options.includeChildren
      .ok { offset := 0, totalSize := 1,
            identifier := TV_PROVIDER_IDENTIFIER, size := 1,
            Metadata := [.seasonItem seasonMetadata] }

set_option linter.unusedVariables false in
/-- `MetadataService.getEpisode`: throws when the lookup-by-number finds
no episode.  (The source also receives `options` here and never reads it;
the parameter is kept.) -/
def getEpisode (client : TVDBClientModel)
    (seriesId seasonNumber episodeNumber : Nat) (options : MetaOptions)
    (seasonType : Option String) : Except String MetadataResponse :=
  let seriesDetails := client.getSeriesDetails seriesId
  match client.getEpisodeByNumber seriesId seasonNumber episodeNumber
      (seasonType.getD "default") with
  | none => .error (episodeNotFoundMsg seasonNumber episodeNumber seriesId)
  | some episode =>
      let episodeDetails := client.getEpisodeDetails episode.id
      let showGuid :=
        TV_PROVIDER_IDENTIFIER ++ "://show/tvdb-show-" ++ natStr seriesId
      let seasonGuid := TV_PROVIDER_IDENTIFIER ++ "://season/tvdb-season-" ++
        natStr seriesId ++ "-" ++ natStr seasonNumber
      let episodeMetadata := mapEpisode episodeDetails seriesId
        seriesDetails.name showGuid ("Season " ++ natStr seasonNumber)
        seasonGuid (orUndef seriesDetails.image) none
      .ok { offset := 0, totalSize := 1,
            identifier := TV_PROVIDER_IDENTIFIER, size := 1,
            Metadata := [.episodeItem episodeMetadata] }

/-- `MetadataService.getMetadata`: decode, dispatch, surface failures. -/
def getMetadata (client : TVDBClientModel) (ratingKey : String)
    (options : MetaOptions) : Except String MetadataResponse :=
  match parseRatingKey ratingKey with
  | none => .error (invalidKeyMsg ratingKey)
  | some parsed =>
      match parsed.type with
      | .showKind => .ok (getShow client parsed.seriesId options)
      | .seasonKind =>
          match parsed.seasonNumber with
          | none => .error ("Invalid season ratingKey: " ++ ratingKey)
          | some seasonNumber =>
              getSeason client parsed.seriesId seasonNumber options
                parsed.seasonType
      | .episodeKind =>
          match parsed.seasonNumber, parsed.episodeNumber with
          | some seasonNumber, some episodeNumber =>
              getEpisode client parsed.seriesId seasonNumber episodeNumber
                options parsed.seasonType
          | _, _ => .error ("Invalid episode ratingKey: " ++ ratingKey)

/-- The caller-visible classification of a failure message: the two
failure families start with distinct prefixes, so inspecting the message
decides the kind. -/
def errKind (msg : String) : String :=
  match msg.data with
  | 'I' :: _ => "invalid-identifier"
  | _ => "not-found"

/-! ## C6: getChildren paging -/

/-- For a non-negative window, `Array.prototype.slice` is the half-open
drop/take window. -/
lemma jsSlice_nonneg {α : Type} (l : List α) (s sz : Int)
    (hs : 0 ≤ s) (hsz : 0 ≤ sz) :
    jsSlice l s (s + sz) = (l.drop s.toNat).take sz.toNat := by
  simp only [jsSlice]
  rw [if_neg (by omega), if_neg (by omega)]
  by_cases hcase : s ≤ (l.length : Int)
  · rw [min_eq_left hcase]
    by_cases h2 : s + sz ≤ (l.length : Int)
    · rw [min_eq_left h2]
      congr 1
      omega
    · rw [min_eq_right (by omega)]
      have hlen : (l.drop s.toNat).length = l.length - s.toNat :=
        List.length_drop _ _
      rw [List.take_of_length_le (by omega),
          List.take_of_length_le (by omega)]
  · rw [min_eq_right (by omega), min_eq_right (by omega)]
    have hd : l.drop s.toNat = [] :=
      List.drop_eq_nil_of_le (by omega)
    have hd' : l.drop ((l.length : Int)).toNat = [] :=
      List.drop_eq_nil_of_le (by omega)
    rw [hd, hd']
    simp

/-- Ten canonical seasons, numbers 1..10. -/
def tenSeasonShow : TVDBSeriesExtended :=
  { id := 42, name := "Ten",
    seasons := some ((List.range 10).map (fun i =>
      { id := 100 + i, number := (i : Int) + 1,
        type := { id := 1, name := "Aired Order", type := "official" } })) }

/-- C6: `getChildren` on a show builds the full filtered child list and
applies the 1-based half-open page window: offset is the zero-based start
index, totalSize the full list length, size the returned slice length,
and the returned slice is `drop (start-1) ∘ take size`.  On ten seasons,
paging {start 1, size 20} returns all ten and {start 11, size 20} returns
none. -/
theorem getChildrenShow_paging (seriesDetails : TVDBSeriesExtended)
    (seriesId : Nat) (paging : PagingOptions)
    (hstart : 1 ≤ paging.containerStart.getD 1)
    (hsize : 0 ≤ paging.containerSize.getD 20) :
    (getChildrenShow seriesDetails seriesId paging).offset =
      paging.containerStart.getD 1 - 1 ∧
    (getChildrenShow seriesDetails seriesId paging).totalSize =
      (childSeasons seriesDetails seriesId).length ∧
    (getChildrenShow seriesDetails seriesId paging).size =
      (getChildrenShow seriesDetails seriesId paging).Metadata.length ∧
    (getChildrenShow seriesDetails seriesId paging).Metadata =
      ((childSeasons seriesDetails seriesId).drop
          (paging.containerStart.getD 1 - 1).toNat).take
        (paging.containerSize.getD 20).toNat ∧
    (getChildrenShow tenSeasonShow 42
      { containerStart := some 1, containerSize := some 20 }).offset = 0 ∧
    (getChildrenShow tenSeasonShow 42
      { containerStart := some 1, containerSize := some 20 }).totalSize = 10 ∧
    (getChildrenShow tenSeasonShow 42
      { containerStart := some 1, containerSize := some 20 }).size = 10 ∧
    (getChildrenShow tenSeasonShow 42
      { containerStart := some 1, containerSize := some 20 }).Metadata =
      childSeasons tenSeasonShow 42 ∧
    (getChildrenShow tenSeasonShow 42
      { containerStart := some 11, containerSize := some 20 }).size = 0 := by
  have hslice : jsSlice (childSeasons seriesDetails seriesId)
      (paging.containerStart.getD 1 - 1)
      ((paging.containerStart.getD 1 - 1) + paging.containerSize.getD 20) =
      ((childSeasons seriesDetails seriesId).drop
          (paging.containerStart.getD 1 - 1).toNat).take
        (paging.containerSize.getD 20).toNat :=
    jsSlice_nonneg _ _ _ (by omega) hsize
  refine ⟨rfl, rfl, rfl, ?_, by decide, by decide, by decide, by decide,
         by decide⟩
  show jsSlice (childSeasons seriesDetails seriesId) _ _ = _
  exact hslice

/-- C6 witness: the paging law evaluated on the ten-season fixture with
paging {start 2, size 3}. -/
theorem getChildrenShow_paging_witness :
    (1 ≤ (({ containerStart := some 2, containerSize := some 3 } :
        PagingOptions)).containerStart.getD 1 ∧
     0 ≤ (({ containerStart := some 2, containerSize := some 3 } :
        PagingOptions)).containerSize.getD 20) ∧
    ((getChildrenShow tenSeasonShow 42
        { containerStart := some 2, containerSize := some 3 }).offset =
      (({ containerStart := some 2, containerSize := some 3 } :
        PagingOptions)).containerStart.getD 1 - 1 ∧
    (getChildrenShow tenSeasonShow 42
        { containerStart := some 2, containerSize := some 3 }).totalSize =
      (childSeasons tenSeasonShow 42).length ∧
    (getChildrenShow tenSeasonShow 42
        { containerStart := some 2, containerSize := some 3 }).size =
      (getChildrenShow tenSeasonShow 42
        { containerStart := some 2, containerSize := some 3 }).Metadata.length ∧
    (getChildrenShow tenSeasonShow 42
        { containerStart := some 2, containerSize := some 3 }).Metadata =
      ((childSeasons tenSeasonShow 42).drop
          ((({ containerStart := some 2, containerSize := some 3 } :
            PagingOptions)).containerStart.getD 1 - 1).toNat).take
        ((({ containerStart := some 2, containerSize := some 3 } :
          PagingOptions)).containerSize.getD 20).toNat ∧
    (getChildrenShow tenSeasonShow 42
      { containerStart := some 1, containerSize := some 20 }).offset = 0 ∧
    (getChildrenShow tenSeasonShow 42
      { containerStart := some 1, containerSize := some 20 }).totalSize = 10 ∧
    (getChildrenShow tenSeasonShow 42
      { containerStart := some 1, containerSize := some 20 }).size = 10 ∧
    (getChildrenShow tenSeasonShow 42
      { containerStart := some 1, containerSize := some 20 }).Metadata =
      childSeasons tenSeasonShow 42 ∧
    (getChildrenShow tenSeasonShow 42
      { containerStart := some 11, containerSize := some 20 }).size = 0) :=
  ⟨⟨by decide, by decide⟩,
    getChildrenShow_paging tenSeasonShow 42
      { containerStart := some 2, containerSize := some 3 }
      (by decide) (by decide)⟩

/-! ## C7: distinguishable error kinds of the metadata lookup -/

lemma errKind_invalid (ratingKey : String) :
    errKind (invalidKeyMsg ratingKey) = "invalid-identifier" := by
  obtain ⟨d⟩ := ratingKey
  rfl

lemma errKind_seasonNotFound (n sid : Nat) :
    errKind (seasonNotFoundMsg n sid) = "not-found" := rfl

lemma errKind_episodeNotFound (n e sid : Nat) :
    errKind (episodeNotFoundMsg n e sid) = "not-found" := rfl

lemma invalid_ne_seasonNotFound (ratingKey : String) (n sid : Nat) :
    invalidKeyMsg ratingKey ≠ seasonNotFoundMsg n sid := by
  intro h
  have hL : (invalidKeyMsg ratingKey).data.head? = some 'I' := by
    obtain ⟨d⟩ := ratingKey
    rfl
  have hR : (seasonNotFoundMsg n sid).data.head? = some 'S' := rfl
  have h' : (invalidKeyMsg ratingKey).data.head? =
      (seasonNotFoundMsg n sid).data.head? := by rw [h]
  rw [hL, hR] at h'
  exact absurd h' (by decide)

lemma invalid_ne_episodeNotFound (ratingKey : String) (n e sid : Nat) :
    invalidKeyMsg ratingKey ≠ episodeNotFoundMsg n e sid := by
  intro h
  have hL : (invalidKeyMsg ratingKey).data.head? = some 'I' := by
    obtain ⟨d⟩ := ratingKey
    rfl
  have hR : (episodeNotFoundMsg n e sid).data.head? = some 'E' := rfl
  have h' : (invalidKeyMsg ratingKey).data.head? =
      (episodeNotFoundMsg n e sid).data.head? := by rw [h]
  rw [hL, hR] at h'
  exact absurd h' (by decide)

/-- C7: `getMetadata` fails with the invalid-identifier error exactly when
decode fails, with the not-found errors exactly when the upstream season /
episode lookup-by-number yields nothing on a syntactically valid
identifier; the two failure families never collide as strings and the
`errKind` inspection tells them apart, so neither is swallowed or coerced
into the other. -/
theorem getMetadata_error_kinds :
    (∀ (client : TVDBClientModel) (rk : String) (opts : MetaOptions),
      parseRatingKey rk = none →
        getMetadata client rk opts = .error (invalidKeyMsg rk)) ∧
    (∀ (client : TVDBClientModel) (rk : String) (opts : MetaOptions)
        (p : ParsedRatingKey) (n : Nat),
      parseRatingKey rk = some p → p.type = .seasonKind →
      p.seasonNumber = some n →
      client.getSeasonByNumber p.seriesId n (p.seasonType.getD "default") =
        none →
      getMetadata client rk opts = .error (seasonNotFoundMsg n p.seriesId)) ∧
    (∀ (client : TVDBClientModel) (rk : String) (opts : MetaOptions)
        (p : ParsedRatingKey) (n e : Nat),
      parseRatingKey rk = some p → p.type = .episodeKind →
      p.seasonNumber = some n → p.episodeNumber = some e →
      client.getEpisodeByNumber p.seriesId n e (p.seasonType.getD "default") =
        none →
      getMetadata client rk opts =
        .error (episodeNotFoundMsg n e p.seriesId)) ∧
    (∀ rk, errKind (invalidKeyMsg rk) = "invalid-identifier") ∧
    (∀ n sid, errKind (seasonNotFoundMsg n sid) = "not-found") ∧
    (∀ n e sid, errKind (episodeNotFoundMsg n e sid) = "not-found") ∧
    (∀ rk n sid, invalidKeyMsg rk ≠ seasonNotFoundMsg n sid) ∧
    (∀ rk n e sid, invalidKeyMsg rk ≠ episodeNotFoundMsg n e sid) := by
  refine ⟨?_, ?_, ?_, errKind_invalid, errKind_seasonNotFound,
          errKind_episodeNotFound, invalid_ne_seasonNotFound,
          invalid_ne_episodeNotFound⟩
  · intro client rk opts h
    simp [getMetadata, h]
  · intro client rk opts p n hp htype hn hlookup
    simp only [getMetadata, hp, htype, hn, getSeason, hlookup]
  · intro client rk opts p n e hp htype hn he hlookup
    simp only [getMetadata, hp, htype, hn, he, getEpisode, hlookup]

/-- An upstream oracle with no seasons and no episodes. -/
def emptyClient : TVDBClientModel :=
  { getSeriesDetails := fun sid => { id := sid, name := "X" }
    getSeasonByNumber := fun _ _ _ => none
    getSeasonDetails := fun i =>
      { id := i, number := 0,
        type := { id := 1, name := "Aired Order", type := "official" } }
    getEpisodeByNumber := fun _ _ _ _ => none
    getEpisodeDetails := fun i => { id := i, number := 0, seasonNumber := 0 } }

/-- C7 witness: the error taxonomy evaluated at a malformed identifier, a
missing season, and a missing episode against the empty oracle. -/
theorem getMetadata_error_kinds_witness :
    (parseRatingKey "garbage" = none ∧
     parseRatingKey "tvdb-season-5-2" =
       some { type := .seasonKind, seriesId := 5, seasonNumber := some 2 } ∧
     parseRatingKey "tvdb-episode-5-2-3" =
       some { type := .episodeKind, seriesId := 5, seasonNumber := some 2,
              episodeNumber := some 3 } ∧
     emptyClient.getSeasonByNumber 5 2 "default" = none ∧
     emptyClient.getEpisodeByNumber 5 2 3 "default" = none) ∧
    (getMetadata emptyClient "garbage" {} =
       .error (invalidKeyMsg "garbage") ∧
     getMetadata emptyClient "tvdb-season-5-2" {} =
       .error (seasonNotFoundMsg 2 5) ∧
     getMetadata emptyClient "tvdb-episode-5-2-3" {} =
       .error (episodeNotFoundMsg 2 3 5) ∧
     errKind (invalidKeyMsg "garbage") = "invalid-identifier" ∧
     errKind (seasonNotFoundMsg 2 5) = "not-found" ∧
     errKind (episodeNotFoundMsg 2 3 5) = "not-found" ∧
     invalidKeyMsg "garbage" ≠ seasonNotFoundMsg 2 5 ∧
     invalidKeyMsg "garbage" ≠ episodeNotFoundMsg 2 3 5) :=
  ⟨⟨by decide, by decide, by decide, rfl, rfl⟩,
   ⟨getMetadata_error_kinds.1 emptyClient "garbage" {} (by decide),
    getMetadata_error_kinds.2.1 emptyClient "tvdb-season-5-2" {}
      { type := .seasonKind, seriesId := 5, seasonNumber := some 2 } 2
      (by decide) rfl rfl rfl,
    getMetadata_error_kinds.2.2.1 emptyClient "tvdb-episode-5-2-3" {}
      { type := .episodeKind, seriesId := 5, seasonNumber := some 2,
        episodeNumber := some 3 } 2 3
      (by decide) rfl rfl rfl rfl,
    getMetadata_error_kinds.2.2.2.1 "garbage",
    getMetadata_error_kinds.2.2.2.2.1 2 5,
    getMetadata_error_kinds.2.2.2.2.2.1 2 3 5,
    getMetadata_error_kinds.2.2.2.2.2.2.1 "garbage" 2 5,
    getMetadata_error_kinds.2.2.2.2.2.2.2 "garbage" 2 3 5⟩⟩

end PlexTvdb
